import Mathlib

/-!
# Wi-Fi AP + STA bring-up (`src/wifi.c`)

A shallow embedding of the connection manager of `wifi.c`:

* the file-scope globals (`ap_config`, `sta_config`, `ap_iface`, `sta_iface`,
  `connected`, `ip_config_work`) together with the part of the network stack the
  code talks to (interface table, log of the calls made) form a `World`;
* every C function is a Lean function on `World`;
* the asynchronous contexts (the net_mgmt event thread running
  `wifi_event_handler`, the work queue running `ip_config_work_handler`) are
  driven by an environment `Env` that says which inputs are delivered at each
  point where `connect_to_wifi` can be interleaved with them, and which code the
  driver returns for each connect request.
-/

namespace Wifi

/-! ## Constants of the platform headers -/

/-- Value of `EIO` in the errno header. -/
def EIO : Int := 5

/-- Value of `EALREADY` in the errno header. -/
def EALREADY : Int := 120

/-- Value of `WIFI_CHANNEL_ANY`. -/
def WIFI_CHANNEL_ANY : Nat := 255

/-- Value of `WIFI_FREQ_BAND_2_4_GHZ`. -/
def WIFI_FREQ_BAND_2_4_GHZ : Nat := 0

/-! ## Data model -/

/-- An IPv4 address, `struct in_addr`, as its four octets `s4_addr[0..3]`. -/
structure in_addr where
  s4_addr0 : Nat
  s4_addr1 : Nat
  s4_addr2 : Nat
  s4_addr3 : Nat
  deriving DecidableEq, Repr

/-- The two members of `enum wifi_security_type` that `wifi.c` uses. -/
inductive wifi_security_type where
  | WIFI_SECURITY_TYPE_NONE
  | WIFI_SECURITY_TYPE_PSK
  deriving DecidableEq, Repr

open wifi_security_type

/-- The fields of `struct wifi_connect_req_params` that `wifi.c` writes.  The
pointers `ssid` and `psk` are represented by the bytes they point to.  The
length fields are 8 bits wide (`uint8_t`), like the values of the accessors
`get_current_ssid_len` and `get_current_psk_len`: a value assigned to them is
taken modulo 256. -/
structure wifi_connect_req_params where
  ssid : List Nat
  ssid_length : Nat
  psk : List Nat
  psk_length : Nat
  channel : Nat
  band : Nat
  security : wifi_security_type
  deriving DecidableEq, Repr

/-- The IPv4 side of a `struct net_if` as far as `wifi.c` can observe or change
it.  `addrs` is the set of unicast addresses in use and `max_addrs` the number
of slots of the unicast table: `net_if_ipv4_addr_add` returns `NULL` when the
address is new and no slot is free. -/
structure net_if where
  up : Bool
  addrs : Finset in_addr
  max_addrs : Nat
  netmask : Option in_addr
  gw : Option in_addr
  dhcpv4_client : Bool
  dhcpv4_server : Option in_addr
  deriving DecidableEq

/-- The calls into the kernel and the network stack, in the order they are made.
An address operation (address remove, address add, netmask set, gateway set)
is logged with the administrative state `up` in which it finds the interface. -/
inductive Action where
  | if_up (iface : Nat)
  | sleep (ms : Nat)
  | addr_rm (iface : Nat) (a : in_addr) (up : Bool)
  | addr_add (iface : Nat) (a : in_addr) (up : Bool)
  | set_netmask (iface : Nat) (m : in_addr) (up : Bool)
  | set_gw (iface : Nat) (g : in_addr) (up : Bool)
  | dhcpv4_stop (iface : Nat)
  | dhcpv4_server_start (iface : Nat) (pool : in_addr)
  | wifi_connect (iface : Option Nat) (params : wifi_connect_req_params) (ret : Int)
  | wifi_ap_enable (iface : Option Nat) (params : wifi_connect_req_params) (ret : Int)
  | work_schedule (ms : Nat)
  | work_cancel
  | work_run
  deriving DecidableEq

/-- The compile-time configuration.  Address strings are represented by the
outcome of `net_addr_pton` on them (`none` when the string does not parse);
`AP_SSID` and `AP_PSK` are the bytes of the string literals, so that
`sizeof(CONFIG_WIFI_SAMPLE_AP_PSK)` is `AP_PSK.length + 1`. -/
structure Config where
  NET_DHCPV4_SERVER : Bool
  AP_SSID : List Nat
  AP_PSK : List Nat
  AP_IP_ADDRESS : Option in_addr
  AP_NETMASK : Option in_addr
  MY_IPV4_ADDR : Option in_addr
  MY_IPV4_NETMASK : Option in_addr
  MY_IPV4_GW : Option in_addr

/-- The answers of the credential accessors `get_current_ssid`,
`get_current_ssid_len`, `get_current_psk`, `get_current_psk_len`; the lengths
are `uint8_t` values. -/
structure Credentials where
  ssid : List Nat
  ssid_len : Nat
  psk : List Nat
  psk_len : Nat

/-- The globals of `wifi.c`, the interface table of the stack and the log of
calls.  A `struct net_if *` is `none` for `NULL` and `some i` for interface `i`.
`ip_config_work` is the single slot of the delayed work item: `some d` when it
is scheduled with `d` ms left. -/
structure World where
  ap_config : wifi_connect_req_params
  sta_config : wifi_connect_req_params
  ap_iface : Option Nat
  sta_iface : Option Nat
  connected : Bool
  ip_config_work : Option Nat
  ifs : Nat → net_if
  log : List Action

/-- The `mgmt_event` argument of the callback together with the part of
`cb->info` the handler reads. -/
inductive Event where
  | CONNECT_RESULT (status : Int)
  | DISCONNECT_RESULT
  | AP_ENABLE_RESULT
  | AP_DISABLE_RESULT
  | AP_STA_CONNECTED (mac : List Nat)
  | AP_STA_DISCONNECTED (mac : List Nat)
  | OTHER
  deriving DecidableEq

/-- What the asynchronous contexts can do between two steps of the caller: the
event thread delivers an event for an interface, or time passes (which lets the
work queue run the delayed work item when its delay is over). -/
inductive Input where
  | event (e : Event) (iface : Nat)
  | elapse (ms : Nat)
  deriving DecidableEq

/-! ## Kernel and network-stack primitives -/

/-- Append a call to the log. -/
def record (a : Action) (w : World) : World :=
  { w with log := w.log ++ [a] }

/-- Replace the state of interface `i`. -/
def set_if (i : Nat) (n : net_if) (w : World) : World :=
  { w with ifs := Function.update w.ifs i n }

/-- The call `net_if_is_up`. -/
def net_if_is_up (i : Nat) (w : World) : Bool :=
  (w.ifs i).up

/-- The call `net_if_up`. -/
def net_if_up (i : Nat) (w : World) : World :=
  record (.if_up i) (set_if i { w.ifs i with up := true } w)

/-- The calls `k_sleep(K_MSEC(ms))` and `k_msleep(ms)`. -/
def k_sleep (ms : Nat) (w : World) : World :=
  record (.sleep ms) w

/-- The call `net_if_ipv4_addr_rm`. -/
def net_if_ipv4_addr_rm (i : Nat) (a : in_addr) (w : World) : World :=
  record (.addr_rm i a (w.ifs i).up)
    (set_if i { w.ifs i with addrs := (w.ifs i).addrs.erase a } w)

/-- The call `net_if_ipv4_addr_add(iface, addr, NET_ADDR_MANUAL, 0)`; the
boolean says whether the result is non-`NULL`. -/
def net_if_ipv4_addr_add (i : Nat) (a : in_addr) (w : World) : World × Bool :=
  if a ∈ (w.ifs i).addrs then
    (record (.addr_add i a (w.ifs i).up) w, true)
  else if (w.ifs i).addrs.card < (w.ifs i).max_addrs then
    (record (.addr_add i a (w.ifs i).up)
      (set_if i { w.ifs i with addrs := insert a (w.ifs i).addrs } w), true)
  else
    (record (.addr_add i a (w.ifs i).up) w, false)

/-- The call `net_if_ipv4_set_netmask`. -/
def net_if_ipv4_set_netmask (i : Nat) (m : in_addr) (w : World) : World :=
  record (.set_netmask i m (w.ifs i).up) (set_if i { w.ifs i with netmask := some m } w)

/-- The call `net_if_ipv4_set_gw`. -/
def net_if_ipv4_set_gw (i : Nat) (g : in_addr) (w : World) : World :=
  record (.set_gw i g (w.ifs i).up) (set_if i { w.ifs i with gw := some g } w)

/-- The call `net_dhcpv4_stop`. -/
def net_dhcpv4_stop (i : Nat) (w : World) : World :=
  record (.dhcpv4_stop i) (set_if i { w.ifs i with dhcpv4_client := false } w)

/-- The call `net_dhcpv4_server_start`, whose return code `ret` is chosen by
the stack. -/
def net_dhcpv4_server_start (i : Nat) (pool : in_addr) (ret : Int) (w : World) : World :=
  let w := record (.dhcpv4_server_start i pool) w
  if ret = 0 then set_if i { w.ifs i with dhcpv4_server := some pool } w else w

/-- The call `k_work_init_delayable(&ip_config_work, ip_config_work_handler)`. -/
def k_work_init_delayable (w : World) : World :=
  { w with ip_config_work := none }

/-- The call `k_work_schedule(&ip_config_work, K_MSEC(ms))`: an item that is
already scheduled keeps its deadline. -/
def k_work_schedule (ms : Nat) (w : World) : World :=
  let w := record (.work_schedule ms) w
  match w.ip_config_work with
  | some _ => w
  | none => { w with ip_config_work := some ms }

/-- The call `k_work_cancel_delayable(&ip_config_work)`. -/
def k_work_cancel_delayable (w : World) : World :=
  { record .work_cancel w with ip_config_work := none }

/-! ## The functions of `wifi.c` -/

/-- The function `enable_dhcpv4_server`. -/
def enable_dhcpv4_server (cfg : Config) (dhcp_ret : Int) (w : World) : World :=
  match w.ap_iface with
  | none => w
  | some ap =>
    let w := if !net_if_is_up ap w then k_sleep 300 (net_if_up ap w) else w
    match cfg.AP_IP_ADDRESS with
    | none => w
    | some ap_ip =>
      match cfg.AP_NETMASK with
      | none => w
      | some netmask =>
        let gateway := ap_ip
        let w := net_if_ipv4_addr_rm ap ap_ip w
        let w := (net_if_ipv4_addr_add ap ap_ip w).1
        let w := net_if_ipv4_set_netmask ap netmask w
        let w := net_if_ipv4_set_gw ap gateway w
        let pool_start := { ap_ip with s4_addr3 := 100 }
        net_dhcpv4_server_start ap pool_start dhcp_ret w

/-- The function `ip_config_work_handler`. -/
def ip_config_work_handler (cfg : Config) (w : World) : World :=
  match w.sta_iface with
  | none => w
  | some sta =>
    let w := net_dhcpv4_stop sta w
    match cfg.MY_IPV4_ADDR with
    | none => w
    | some sta_ip =>
      match cfg.MY_IPV4_NETMASK with
      | none => w
      | some netmask =>
        match cfg.MY_IPV4_GW with
        | none => w
        | some gateway =>
          let w := net_if_ipv4_addr_rm sta sta_ip w
          let r := net_if_ipv4_addr_add sta sta_ip w
          if r.2 = false then
            r.1
          else
            let w := net_if_ipv4_set_netmask sta netmask r.1
            net_if_ipv4_set_gw sta gateway w

/-- The function `wifi_event_handler`. -/
def wifi_event_handler (e : Event) (iface : Nat) (w : World) : World :=
  match e with
  | .CONNECT_RESULT status =>
    if status ≠ 0 then
      { w with connected := false }
    else
      let w := { w with sta_iface := some iface }
      let w := { w with connected := true }
      let w := net_if_up iface w
      let w := net_dhcpv4_stop iface w
      let w := k_work_init_delayable w
      k_work_schedule 3000 w
  | .DISCONNECT_RESULT =>
    let w := { w with connected := false }
    let w := k_work_cancel_delayable w
    net_dhcpv4_stop iface w
  | .AP_STA_CONNECTED _ => w
  | .AP_STA_DISCONNECTED _ => w
  | _ => w

/-- The function `enable_ap_mode`; `ap_ret` is the return code of
`net_mgmt(NET_REQUEST_WIFI_AP_ENABLE, ...)`.  The values `sizeof(...) - 1` are
converted to the 8-bit length fields on assignment. -/
def enable_ap_mode (cfg : Config) (dhcp_ret ap_ret : Int) (w : World) : World × Int :=
  let c := w.ap_config
  let c := { c with ssid := cfg.AP_SSID }
  let c := { c with ssid_length := ((cfg.AP_SSID.length + 1) - 1) % 256 }
  let c := { c with psk := cfg.AP_PSK }
  let c :=
    if cfg.AP_PSK.length + 1 ≤ 1 then
      { c with security := WIFI_SECURITY_TYPE_NONE, psk_length := 0 }
    else
      { c with
        security := WIFI_SECURITY_TYPE_PSK,
        psk_length := ((cfg.AP_PSK.length + 1) - 1) % 256 }
  let c := { c with channel := WIFI_CHANNEL_ANY, band := WIFI_FREQ_BAND_2_4_GHZ }
  let w := { w with ap_config := c }
  let w := if cfg.NET_DHCPV4_SERVER then enable_dhcpv4_server cfg dhcp_ret w else w
  let ret := ap_ret
  (record (.wifi_ap_enable w.ap_iface w.ap_config ret) w, ret)

/-! ## The asynchronous contexts -/

/-- Time passes: when the delayed work item is scheduled and its delay is over,
the work queue runs `ip_config_work_handler`. -/
def elapse (cfg : Config) (ms : Nat) (w : World) : World :=
  match w.ip_config_work with
  | none => w
  | some d =>
    if d ≤ ms then
      ip_config_work_handler cfg (record .work_run { w with ip_config_work := none })
    else
      { w with ip_config_work := some (d - ms) }

/-- One input of the asynchronous contexts. -/
def sys_step (cfg : Config) (i : Input) (w : World) : World :=
  match i with
  | .event e iface => wifi_event_handler e iface w
  | .elapse ms => elapse cfg ms w

/-- A run of inputs of the asynchronous contexts. -/
def deliver (cfg : Config) (ins : List Input) (w : World) : World :=
  ins.foldl (fun w i => sys_step cfg i w) w

/-- The environment of one call of `connect_to_wifi`: `ret a` is the return
code of the connect request of attempt `a` (0, 1, 2); the other fields are the
inputs that the asynchronous contexts handle at each point where they can be
interleaved with the caller: after `connected = false`, while a request is being
made, during a backoff sleep, during poll sleep `j` (0..29) of attempt `a`,
between the end of the poll loop and the test `if(connected)`, and between the
end of the retry loop and the final test `if(!connected)`.  A handler runs to
completion between two steps of the caller.  `connected` is a plain variable:
the caller is taken to load it again at every test, except at the final test
when the loop was left by the `break` that follows the store
`connected = true`: no call lies between that store and the final test, and the
test reads the value just stored. -/
structure Env where
  ret : Nat → Int
  at_start : List Input
  in_request : Nat → List Input
  in_backoff : Nat → List Input
  in_poll : Nat → Nat → List Input
  at_check : Nat → List Input
  at_exit : List Input

/-- The call `net_mgmt(NET_REQUEST_WIFI_CONNECT, sta_iface, &sta_config, ...)`
returning `ret`. -/
def net_mgmt_connect (ret : Int) (w : World) : World :=
  record (.wifi_connect w.sta_iface w.sta_config ret) w

/-- The loop `while(timeout-- && !connected) k_msleep(500);` of attempt `a`,
with `timeout` iterations left and `j` sleeps done. -/
def poll (cfg : Config) (env : Env) (a : Nat) : Nat → Nat → World → World
  | 0, _, w => w
  | timeout + 1, j, w =>
    if !w.connected then
      poll cfg env a timeout (j + 1) (deliver cfg (env.in_poll a j) (k_sleep 500 w))
    else
      w

/-- How the body of the retry loop is left: by the `break` that follows the
store `connected = true`, by the `break` that follows the test `if(connected)`,
or for the next iteration. -/
inductive Flow where
  | brk_stored
  | brk
  | cont
  deriving DecidableEq

/-- The body of `while(retries--)` for attempt `a`. -/
def attempt (cfg : Config) (env : Env) (a : Nat) (w : World) : World × Flow :=
  let ret := env.ret a
  let w := net_mgmt_connect ret w
  let w := deliver cfg (env.in_request a) w
  if ret ≠ 0 then
    if ret = - EALREADY then
      ({ w with connected := true }, .brk_stored)
    else
      let w := k_sleep 3000 w
      let w := deliver cfg (env.in_backoff a) w
      (w, .cont)
  else
    let w := poll cfg env a 30 0 w
    let w := deliver cfg (env.at_check a) w
    if w.connected then (w, .brk) else (w, .cont)

/-- The loop `while(retries--)`; the attempt run when `retries` has just been
decremented to `r` is attempt `2 - r`.  The boolean says whether the loop was
left by the `break` that follows the store `connected = true`. -/
def retry_loop (cfg : Config) (env : Env) : Nat → World → World × Bool
  | 0, w => (w, false)
  | r + 1, w =>
    match attempt cfg env (2 - r) w with
    | (w, .brk_stored) => (w, true)
    | (w, .brk) => (w, false)
    | (w, .cont) => retry_loop cfg env r w

/-- The function `connect_to_wifi`.  The inputs `at_exit` come before the final
test, except when the retry loop was left right after the store
`connected = true`, which the final test then reads. -/
def connect_to_wifi (cfg : Config) (env : Env) (cr : Credentials) (w : World) : World × Int :=
  let c := w.sta_config
  let c := { c with ssid := cr.ssid, ssid_length := cr.ssid_len }
  let c := { c with psk := cr.psk, psk_length := cr.psk_len }
  let c := { c with channel := WIFI_CHANNEL_ANY, band := WIFI_FREQ_BAND_2_4_GHZ }
  let c :=
    if c.psk_length > 0 then
      { c with security := WIFI_SECURITY_TYPE_PSK }
    else
      { c with security := WIFI_SECURITY_TYPE_NONE }
  let w := { w with sta_config := c }
  let w := { w with connected := false }
  let w := deliver cfg env.at_start w
  let r := retry_loop cfg env 3 w
  let w := if r.2 then r.1 else deliver cfg env.at_exit r.1
  if !w.connected then (w, - EIO) else (w, 0)

/-! ## Observations on a log -/

/-- What `connect_to_wifi` itself does: connect requests (with the code the
driver returned) and sleeps. -/
inductive Step where
  | request (ret : Int)
  | sleep (ms : Nat)
  deriving DecidableEq, Repr

/-- The step of `connect_to_wifi` a logged call stands for, if any. -/
def step_of : Action → Option Step
  | .wifi_connect _ _ ret => some (.request ret)
  | .sleep ms => some (.sleep ms)
  | _ => none

/-- The connect requests and sleeps of a log, in order. -/
def steps (l : List Action) : List Step :=
  l.filterMap step_of

/-- Whether a logged call is a connect request. -/
def is_connect_request : Action → Bool
  | .wifi_connect _ _ _ => true
  | _ => false

/-- Number of connect requests (`NET_REQUEST_WIFI_CONNECT`) in a log. -/
def connect_requests (l : List Action) : Nat :=
  l.countP is_connect_request

/-- The value an input writes to `connected`, if it writes it. -/
def flag_write : Input → Option Bool
  | .event (.CONNECT_RESULT status) _ => some (decide (status = 0))
  | .event .DISCONNECT_RESULT _ => some false
  | _ => none

/-- The value of `connected` after a run of inputs, from its value before. -/
def flag_after (ins : List Input) (b : Bool) : Bool :=
  ins.foldl (fun b i => (flag_write i).getD b) b

/-- Whether an input is a `ConnectResult` event with status 0. -/
def is_success : Input → Bool
  | .event (.CONNECT_RESULT status) _ => decide (status = 0)
  | _ => false

/-- The parameters a logged call passes to the driver, if it is a connect request. -/
def params_of : Action → Option wifi_connect_req_params
  | .wifi_connect _ p _ => some p
  | _ => none

/-- The parameters of the connect requests of a log, in order. -/
def requested (l : List Action) : List wifi_connect_req_params :=
  l.filterMap params_of

/-- Whether a step is a connect request. -/
def is_request : Step → Bool
  | .request _ => true
  | .sleep _ => false

/-- The value `sta_config` gets at the start of `connect_to_wifi`. -/
def sta_params (cr : Credentials) (c : wifi_connect_req_params) : wifi_connect_req_params :=
  let c := { c with ssid := cr.ssid, ssid_length := cr.ssid_len }
  let c := { c with psk := cr.psk, psk_length := cr.psk_len }
  let c := { c with channel := WIFI_CHANNEL_ANY, band := WIFI_FREQ_BAND_2_4_GHZ }
  if c.psk_length > 0 then
    { c with security := WIFI_SECURITY_TYPE_PSK }
  else
    { c with security := WIFI_SECURITY_TYPE_NONE }

/-- The world in which `connect_to_wifi` enters its retry loop. -/
def loop_entry (cfg : Config) (env : Env) (cr : Credentials) (w : World) : World :=
  deliver cfg env.at_start
    { { w with sta_config := sta_params cr w.sta_config } with connected := false }

/-- The world in which attempt `a` of the retry loop starts, when the loop,
entered in `w`, gets that far: every earlier attempt ended with `continue` or
fell through to the end of the loop body. -/
def before_attempt (cfg : Config) (env : Env) : Nat → World → Option World
  | 0, w => some w
  | a + 1, w =>
    match before_attempt cfg env a w with
    | none => none
    | some wa =>
      match attempt cfg env a wa with
      | (_, .brk_stored) => none
      | (_, .brk) => none
      | (w, .cont) => some w

/-- The inputs handled during a call of `connect_to_wifi` in which every
request is refused, in the order they are handled. -/
def inputs_when_refused (env : Env) : List Input :=
  env.at_start ++ env.in_request 0 ++ env.in_backoff 0 ++ env.in_request 1 ++
    env.in_backoff 1 ++ env.in_request 2 ++ env.in_backoff 2 ++ env.at_exit

/-- No successful connect result is handled at any point of the call. -/
def no_success (env : Env) : Prop :=
  (∀ i ∈ env.at_start, is_success i = false) ∧
  (∀ a, ∀ i ∈ env.in_request a, is_success i = false) ∧
  (∀ a, ∀ i ∈ env.in_backoff a, is_success i = false) ∧
  (∀ a j, ∀ i ∈ env.in_poll a j, is_success i = false) ∧
  (∀ a, ∀ i ∈ env.at_check a, is_success i = false) ∧
  (∀ i ∈ env.at_exit, is_success i = false)

/-- Total time slept in a sequence of steps, in ms. -/
def slept : List Step → Nat
  | [] => 0
  | .sleep ms :: l => ms + slept l
  | .request _ :: l => slept l

/-- The steps of an accepted attempt that times out. -/
def timeout_block : List Step :=
  Step.request 0 :: List.replicate 30 (Step.sleep 500)

/-- The addressed state of an interface: its addresses, netmask and gateway. -/
def addressing (n : net_if) : Finset in_addr × Option in_addr × Option in_addr :=
  (n.addrs, n.netmask, n.gw)

/-- Whether a logged call is an address operation that found its interface
administratively down. -/
def on_down : Action → Bool
  | .addr_rm _ _ up => !up
  | .addr_add _ _ up => !up
  | .set_netmask _ _ up => !up
  | .set_gw _ _ up => !up
  | _ => false

/-- The calls `enable_dhcpv4_server` makes for interface `ap` after its test of
`net_if_is_up`: each address operation finds the interface up. -/
def ap_calls (cfg : Config) (ap : Nat) : List Action :=
  match cfg.AP_IP_ADDRESS, cfg.AP_NETMASK with
  | some ip, some m =>
    [.addr_rm ap ip true, .addr_add ap ip true, .set_netmask ap m true, .set_gw ap ip true,
      .dhcpv4_server_start ap { ip with s4_addr3 := 100 }]
  | _, _ => []

/-- The calls `ip_config_work_handler` makes for interface `sta` found in
administrative state `up`, with a valid configuration; `room` says whether the
address add succeeds. -/
def sta_calls (sta : Nat) (ip m g : in_addr) (up room : Bool) : List Action :=
  [.dhcpv4_stop sta, .addr_rm sta ip up, .addr_add sta ip up] ++
    (if room then [.set_netmask sta m up, .set_gw sta g up] else [])

/-! ## Concrete inputs -/

/-- An interface that is down, with one free address slot. -/
def idle_if : net_if :=
  { up := false, addrs := ∅, max_addrs := 1, netmask := none, gw := none,
    dhcpv4_client := false, dhcpv4_server := none }

/-- Request parameters before anything is written to them. -/
def blank_params : wifi_connect_req_params :=
  { ssid := [], ssid_length := 0, psk := [], psk_length := 0, channel := 0, band := 0,
    security := WIFI_SECURITY_TYPE_NONE }

/-- A world after interface resolution: AP is interface 1, STA is interface 2. -/
def world0 : World :=
  { ap_config := blank_params, sta_config := blank_params, ap_iface := some 1,
    sta_iface := some 2, connected := false, ip_config_work := none,
    ifs := fun _ => idle_if, log := [] }

/-- A configuration: AP 192.168.4.1/24, STA 192.168.1.50/24 with gateway 192.168.1.1. -/
def cfg0 : Config :=
  { NET_DHCPV4_SERVER := true, AP_SSID := [65, 80], AP_PSK := [],
    AP_IP_ADDRESS := some ⟨192, 168, 4, 1⟩, AP_NETMASK := some ⟨255, 255, 255, 0⟩,
    MY_IPV4_ADDR := some ⟨192, 168, 1, 50⟩, MY_IPV4_NETMASK := some ⟨255, 255, 255, 0⟩,
    MY_IPV4_GW := some ⟨192, 168, 1, 1⟩ }

/-- Credentials of an open network called "Net1". -/
def cred0 : Credentials :=
  { ssid := [78, 101, 116, 49], ssid_len := 4, psk := [], psk_len := 0 }

/-- An environment in which the driver answers every request with `ret` and
nothing else happens. -/
def quiet_env (ret : Int) : Env :=
  { ret := fun _ => ret, at_start := [], in_request := fun _ => [], in_backoff := fun _ => [],
    in_poll := fun _ _ => [], at_check := fun _ => [], at_exit := [] }

/-- The first request is refused with `-EBUSY` (-16) and the second returns
`-EALREADY`; meanwhile a failed connect result and time passing are handled. -/
def env_busy_then_already : Env :=
  { quiet_env (- EALREADY) with
    ret := fun a => if a = 0 then -16 else - EALREADY
    in_backoff := fun _ => [.event (.CONNECT_RESULT (-1)) 2, .elapse 1000] }

/-- Every request returns `-EBUSY` (-16), and a successful connect result is
handled during the first backoff sleep. -/
def env_busy_then_success : Env :=
  { quiet_env (-16) with
    in_backoff := fun a => if a = 0 then [.event (.CONNECT_RESULT 0) 2] else [] }

/-- Every request is accepted; during the last (30th) poll sleep of the first
attempt a successful connect result is handled. -/
def env_success_in_last_sleep : Env :=
  { quiet_env 0 with
    in_poll := fun a j => if a = 0 ∧ j = 29 then [.event (.CONNECT_RESULT 0) 2] else [] }

/-- Every request is accepted; during the first poll sleep of the first attempt
a successful connect result and then a disconnect result are handled. -/
def env_success_then_disconnect : Env :=
  { quiet_env 0 with
    in_poll := fun a j =>
      if a = 0 ∧ j = 0 then [.event (.CONNECT_RESULT 0) 2, .event .DISCONNECT_RESULT 2]
      else [] }

/-- A failed connect result, framed by time passing. -/
def inputs_without_success : List Input :=
  [.elapse 5000, .event (.CONNECT_RESULT (-1)) 2, .elapse 5000]

/-- Credentials of a protected network: a 8-byte PSK. -/
def cred_psk : Credentials :=
  { ssid := [78, 101, 116, 49], ssid_len := 4, psk := [49, 50, 51, 52, 53, 54, 55, 56],
    psk_len := 8 }

/-- The configuration `cfg0` with an AP PSK of 256 bytes. -/
def cfg_long_psk : Config :=
  { cfg0 with AP_PSK := List.replicate 256 97 }

/-- An interface that is down and whose only address slot holds 10.0.0.9. -/
def full_if : net_if :=
  { idle_if with addrs := {⟨10, 0, 0, 9⟩} }

/-- A world in which the address tables of all interfaces are full. -/
def world_full : World :=
  { world0 with ifs := fun _ => full_if }

/-! ## Basic facts about the primitives -/

section basic

variable (cfg : Config) (env : Env)

@[simp] theorem steps_nil : steps [] = [] := rfl

@[simp] theorem steps_append (l₁ l₂ : List Action) :
    steps (l₁ ++ l₂) = steps l₁ ++ steps l₂ := by
  simp [steps]

@[simp] theorem steps_cons (a : Action) (l : List Action) :
    steps (a :: l) = (step_of a).toList ++ steps l := by
  cases h : step_of a <;> simp [steps, List.filterMap_cons, h]

@[simp] theorem record_log (a : Action) (w : World) : (record a w).log = w.log ++ [a] := rfl

@[simp] theorem record_connected (a : Action) (w : World) :
    (record a w).connected = w.connected := rfl

@[simp] theorem record_sta_config (a : Action) (w : World) :
    (record a w).sta_config = w.sta_config := rfl

@[simp] theorem record_sta_iface (a : Action) (w : World) :
    (record a w).sta_iface = w.sta_iface := rfl

@[simp] theorem record_ap_iface (a : Action) (w : World) :
    (record a w).ap_iface = w.ap_iface := rfl

@[simp] theorem record_ap_config (a : Action) (w : World) :
    (record a w).ap_config = w.ap_config := rfl

@[simp] theorem record_work (a : Action) (w : World) :
    (record a w).ip_config_work = w.ip_config_work := rfl

@[simp] theorem record_ifs (a : Action) (w : World) : (record a w).ifs = w.ifs := rfl

@[simp] theorem set_if_log (i : Nat) (n : net_if) (w : World) : (set_if i n w).log = w.log := rfl

@[simp] theorem set_if_connected (i : Nat) (n : net_if) (w : World) :
    (set_if i n w).connected = w.connected := rfl

@[simp] theorem set_if_sta_config (i : Nat) (n : net_if) (w : World) :
    (set_if i n w).sta_config = w.sta_config := rfl

@[simp] theorem set_if_sta_iface (i : Nat) (n : net_if) (w : World) :
    (set_if i n w).sta_iface = w.sta_iface := rfl

@[simp] theorem set_if_ap_iface (i : Nat) (n : net_if) (w : World) :
    (set_if i n w).ap_iface = w.ap_iface := rfl

@[simp] theorem set_if_ap_config (i : Nat) (n : net_if) (w : World) :
    (set_if i n w).ap_config = w.ap_config := rfl

@[simp] theorem set_if_work (i : Nat) (n : net_if) (w : World) :
    (set_if i n w).ip_config_work = w.ip_config_work := rfl

@[simp] theorem set_if_ifs (i : Nat) (n : net_if) (w : World) :
    (set_if i n w).ifs = Function.update w.ifs i n := rfl

@[simp] theorem k_sleep_log (ms : Nat) (w : World) :
    (k_sleep ms w).log = w.log ++ [.sleep ms] := rfl

@[simp] theorem k_sleep_connected (ms : Nat) (w : World) :
    (k_sleep ms w).connected = w.connected := rfl

@[simp] theorem k_sleep_sta_config (ms : Nat) (w : World) :
    (k_sleep ms w).sta_config = w.sta_config := rfl

@[simp] theorem k_sleep_ifs (ms : Nat) (w : World) : (k_sleep ms w).ifs = w.ifs := rfl

@[simp] theorem k_sleep_ap_iface (ms : Nat) (w : World) :
    (k_sleep ms w).ap_iface = w.ap_iface := rfl

@[simp] theorem k_sleep_ap_config (ms : Nat) (w : World) :
    (k_sleep ms w).ap_config = w.ap_config := rfl

@[simp] theorem addr_add_log (i : Nat) (a : in_addr) (w : World) :
    (net_if_ipv4_addr_add i a w).1.log = w.log ++ [.addr_add i a (w.ifs i).up] := by
  unfold net_if_ipv4_addr_add; split_ifs <;> simp

@[simp] theorem addr_add_connected (i : Nat) (a : in_addr) (w : World) :
    (net_if_ipv4_addr_add i a w).1.connected = w.connected := by
  unfold net_if_ipv4_addr_add; split_ifs <;> simp

@[simp] theorem addr_add_sta_config (i : Nat) (a : in_addr) (w : World) :
    (net_if_ipv4_addr_add i a w).1.sta_config = w.sta_config := by
  unfold net_if_ipv4_addr_add; split_ifs <;> simp

@[simp] theorem addr_add_sta_iface (i : Nat) (a : in_addr) (w : World) :
    (net_if_ipv4_addr_add i a w).1.sta_iface = w.sta_iface := by
  unfold net_if_ipv4_addr_add; split_ifs <;> simp

@[simp] theorem addr_add_work (i : Nat) (a : in_addr) (w : World) :
    (net_if_ipv4_addr_add i a w).1.ip_config_work = w.ip_config_work := by
  unfold net_if_ipv4_addr_add; split_ifs <;> simp

@[simp] theorem addr_add_ap_config (i : Nat) (a : in_addr) (w : World) :
    (net_if_ipv4_addr_add i a w).1.ap_config = w.ap_config := by
  unfold net_if_ipv4_addr_add; split_ifs <;> simp

@[simp] theorem addr_add_ap_iface (i : Nat) (a : in_addr) (w : World) :
    (net_if_ipv4_addr_add i a w).1.ap_iface = w.ap_iface := by
  unfold net_if_ipv4_addr_add; split_ifs <;> simp

theorem ap_config_enable_dhcpv4_server (dhcp_ret : Int) (w : World) :
    (enable_dhcpv4_server cfg dhcp_ret w).ap_config = w.ap_config ∧
      (enable_dhcpv4_server cfg dhcp_ret w).ap_iface = w.ap_iface := by
  unfold enable_dhcpv4_server
  repeat (first
    | exact ⟨rfl, rfl⟩
    | split
    | simp [net_dhcpv4_server_start, net_if_ipv4_addr_rm, net_if_up,
        net_if_ipv4_set_netmask, net_if_ipv4_set_gw])

/-- The handler of the delayed work item makes no connect request and does not sleep. -/
theorem steps_ip_config_work_handler (w : World) :
    steps (ip_config_work_handler cfg w).log = steps w.log := by
  unfold ip_config_work_handler
  repeat (first
    | rfl
    | split
    | simp [net_dhcpv4_stop, net_if_ipv4_addr_rm,
        net_if_ipv4_set_netmask, net_if_ipv4_set_gw, step_of])

theorem connected_ip_config_work_handler (w : World) :
    (ip_config_work_handler cfg w).connected = w.connected := by
  unfold ip_config_work_handler
  repeat (first
    | rfl
    | split
    | simp [net_dhcpv4_stop, net_if_ipv4_addr_rm,
        net_if_ipv4_set_netmask, net_if_ipv4_set_gw])

theorem sta_config_ip_config_work_handler (w : World) :
    (ip_config_work_handler cfg w).sta_config = w.sta_config := by
  unfold ip_config_work_handler
  repeat (first
    | rfl
    | split
    | simp [net_dhcpv4_stop, net_if_ipv4_addr_rm,
        net_if_ipv4_set_netmask, net_if_ipv4_set_gw])

theorem work_ip_config_work_handler (w : World) :
    (ip_config_work_handler cfg w).ip_config_work = w.ip_config_work := by
  unfold ip_config_work_handler
  repeat (first
    | rfl
    | split
    | simp [net_dhcpv4_stop, net_if_ipv4_addr_rm,
        net_if_ipv4_set_netmask, net_if_ipv4_set_gw])

/-- An input of the asynchronous contexts makes no connect request and does not sleep. -/
theorem steps_sys_step (i : Input) (w : World) :
    steps (sys_step cfg i w).log = steps w.log := by
  cases i with
  | event e iface =>
    cases e <;> simp [sys_step, wifi_event_handler]
    · split_ifs <;>
        simp [k_work_schedule, k_work_init_delayable, net_dhcpv4_stop, net_if_up, step_of]
    · simp [k_work_cancel_delayable, net_dhcpv4_stop, step_of]
  | elapse ms =>
    simp only [sys_step, elapse]
    split
    · rfl
    · split_ifs
      · simp [steps_ip_config_work_handler, step_of]
      · rfl

/-- An input of the asynchronous contexts leaves `sta_config` alone. -/
theorem sta_config_sys_step (i : Input) (w : World) :
    (sys_step cfg i w).sta_config = w.sta_config := by
  cases i with
  | event e iface =>
    cases e <;> simp [sys_step, wifi_event_handler]
    · split_ifs <;>
        simp [k_work_schedule, k_work_init_delayable, net_dhcpv4_stop, net_if_up]
    · simp [k_work_cancel_delayable, net_dhcpv4_stop]
  | elapse ms =>
    simp only [sys_step, elapse]
    split
    · rfl
    · split_ifs
      · simp [sta_config_ip_config_work_handler]
      · rfl

/-- The only inputs that write `connected` are the connect and disconnect results. -/
theorem connected_sys_step (i : Input) (w : World) :
    (sys_step cfg i w).connected = (flag_write i).getD w.connected := by
  cases i with
  | event e iface =>
    cases e <;> simp [sys_step, wifi_event_handler, flag_write]
    · split_ifs with h <;>
        simp [k_work_schedule, k_work_init_delayable, net_dhcpv4_stop, net_if_up, h]
    · simp [k_work_cancel_delayable, net_dhcpv4_stop]
  | elapse ms =>
    simp only [sys_step, elapse, flag_write, Option.getD_none]
    split
    · rfl
    · split_ifs
      · simp [connected_ip_config_work_handler]
      · rfl

theorem steps_deliver (ins : List Input) (w : World) :
    steps (deliver cfg ins w).log = steps w.log := by
  induction ins generalizing w with
  | nil => rfl
  | cons i ins ih => simp [deliver, List.foldl_cons] at ih ⊢; rw [ih, steps_sys_step]

theorem sta_config_deliver (ins : List Input) (w : World) :
    (deliver cfg ins w).sta_config = w.sta_config := by
  induction ins generalizing w with
  | nil => rfl
  | cons i ins ih => simp [deliver, List.foldl_cons] at ih ⊢; rw [ih, sta_config_sys_step]

theorem connected_deliver (ins : List Input) (w : World) :
    (deliver cfg ins w).connected = flag_after ins w.connected := by
  induction ins generalizing w with
  | nil => rfl
  | cons i ins ih =>
    simp [deliver, flag_after, List.foldl_cons] at ih ⊢; rw [ih, connected_sys_step]

@[simp] theorem requested_nil : requested [] = [] := rfl

@[simp] theorem requested_append (l₁ l₂ : List Action) :
    requested (l₁ ++ l₂) = requested l₁ ++ requested l₂ := by
  simp [requested]

@[simp] theorem requested_cons (a : Action) (l : List Action) :
    requested (a :: l) = (params_of a).toList ++ requested l := by
  cases h : params_of a <;> simp [requested, List.filterMap_cons, h]

theorem requested_ip_config_work_handler (w : World) :
    requested (ip_config_work_handler cfg w).log = requested w.log := by
  unfold ip_config_work_handler
  repeat (first
    | rfl
    | split
    | simp [net_dhcpv4_stop, net_if_ipv4_addr_rm,
        net_if_ipv4_set_netmask, net_if_ipv4_set_gw, params_of])

theorem requested_sys_step (i : Input) (w : World) :
    requested (sys_step cfg i w).log = requested w.log := by
  cases i with
  | event e iface =>
    cases e <;> simp [sys_step, wifi_event_handler]
    · split_ifs <;>
        simp [k_work_schedule, k_work_init_delayable, net_dhcpv4_stop, net_if_up, params_of]
    · simp [k_work_cancel_delayable, net_dhcpv4_stop, params_of]
  | elapse ms =>
    simp only [sys_step, elapse]
    split
    · rfl
    · split_ifs
      · simp [requested_ip_config_work_handler, params_of]
      · rfl

theorem requested_deliver (ins : List Input) (w : World) :
    requested (deliver cfg ins w).log = requested w.log := by
  induction ins generalizing w with
  | nil => rfl
  | cons i ins ih => simp [deliver, List.foldl_cons] at ih ⊢; rw [ih, requested_sys_step]

theorem flag_after_append (l₁ l₂ : List Input) (b : Bool) :
    flag_after (l₁ ++ l₂) b = flag_after l₂ (flag_after l₁ b) := by
  simp [flag_after]

/-- A run of inputs without a successful connect result leaves a false flag false. -/
theorem flag_after_false (ins : List Input) (h : ∀ i ∈ ins, is_success i = false) :
    flag_after ins false = false := by
  induction ins with
  | nil => rfl
  | cons i ins ih =>
    have hi : (flag_write i).getD false = false := by
      have := h i (List.mem_cons_self _ _)
      cases i with
      | event e iface => cases e <;> simp_all [flag_write, is_success]
      | elapse ms => rfl
    simp only [flag_after, List.foldl_cons, hi]
    exact ih fun j hj => h j (List.mem_cons_of_mem _ hj)

/-- A run of inputs that sets a clear flag holds a successful connect result. -/
theorem flag_after_true (ins : List Input) (h : flag_after ins false = true) :
    ∃ i ∈ ins, is_success i = true := by
  by_contra hc
  have hf := flag_after_false ins (fun i hi => by
    cases hs : is_success i with
    | false => rfl
    | true => exact absurd ⟨i, hi, hs⟩ hc)
  rw [hf] at h
  cases h

/-- The number of connect requests can be read off the steps. -/
theorem connect_requests_eq (l : List Action) :
    connect_requests l = (steps l).countP is_request := by
  induction l with
  | nil => rfl
  | cons a l ih =>
    cases a <;>
      simp_all [connect_requests, is_connect_request, is_request, step_of, List.countP_cons]

end basic

/-! ## The poll loop -/

section loops

variable (cfg : Config) (env : Env)

/-- A poll loop entered with the flag set does nothing. -/
theorem poll_of_connected (a t j : Nat) (w : World) (h : w.connected = true) :
    poll cfg env a t j w = w := by
  cases t <;> simp [poll, h]

/-- The poll loop only sleeps, 500 ms at a time. -/
theorem poll_steps (a : Nat) : ∀ (t j : Nat) (w : World),
    ∃ n, n ≤ t ∧ steps (poll cfg env a t j w).log =
      steps w.log ++ List.replicate n (Step.sleep 500)
  | 0, _, w => ⟨0, le_refl _, by simp [poll]⟩
  | t + 1, j, w => by
    by_cases h : w.connected = true
    · exact ⟨0, Nat.zero_le _, by simp [poll, h]⟩
    · obtain ⟨n, hn, e⟩ := poll_steps a t (j + 1) (deliver cfg (env.in_poll a j) (k_sleep 500 w))
      refine ⟨n + 1, by omega, ?_⟩
      simp [poll, h, e, steps_deliver, step_of, List.replicate_succ]

theorem poll_sta_config (a : Nat) : ∀ (t j : Nat) (w : World),
    (poll cfg env a t j w).sta_config = w.sta_config
  | 0, _, w => by simp [poll]
  | t + 1, j, w => by
    by_cases h : w.connected = true
    · simp [poll, h]
    · simp [poll, h, poll_sta_config a t, sta_config_deliver]

theorem poll_requested (a : Nat) : ∀ (t j : Nat) (w : World),
    requested (poll cfg env a t j w).log = requested w.log
  | 0, _, w => by simp [poll]
  | t + 1, j, w => by
    by_cases h : w.connected = true
    · simp [poll, h]
    · simp [poll, h, poll_requested a t, requested_deliver, params_of]

/-- While no poll sleep sees the flag set, the loop sleeps `t` times. -/
theorem poll_stays_false (a : Nat) : ∀ (t j : Nat) (w : World), w.connected = false →
    (∀ i, i < t → flag_after (env.in_poll a (j + i)) false = false) →
    steps (poll cfg env a t j w).log = steps w.log ++ List.replicate t (Step.sleep 500) ∧
      (poll cfg env a t j w).connected = false
  | 0, _, w, hw, _ => by simp [poll, hw]
  | t + 1, j, w, hw, h => by
    have h0 := h 0 (Nat.succ_pos _)
    have hw1 : (deliver cfg (env.in_poll a j) (k_sleep 500 w)).connected = false := by
      rw [connected_deliver]; simpa [hw] using h0
    obtain ⟨e, c⟩ := poll_stays_false a t (j + 1) _ hw1
      (fun i hi => by have := h (i + 1) (by omega); rwa [Nat.add_assoc, Nat.add_comm 1 i])
    simp only [poll, hw, Bool.not_false, if_true]
    refine ⟨?_, c⟩
    rw [e]
    simp [steps_deliver, step_of, List.replicate_succ]

/-- When the flag is first seen set after sleep `k + 1`, the loop sleeps `k + 1` times. -/
theorem poll_hit (a : Nat) : ∀ (k t j : Nat) (w : World), k < t → w.connected = false →
    (∀ i, i < k → flag_after (env.in_poll a (j + i)) false = false) →
    flag_after (env.in_poll a (j + k)) false = true →
    steps (poll cfg env a t j w).log =
        steps w.log ++ List.replicate (k + 1) (Step.sleep 500) ∧
      (poll cfg env a t j w).connected = true
  | _, 0, _, _, hk, _, _, _ => absurd hk (Nat.not_lt_zero _)
  | 0, t + 1, j, w, _, hw, _, hit => by
    have hw1 : (deliver cfg (env.in_poll a j) (k_sleep 500 w)).connected = true := by
      rw [connected_deliver]; simpa [hw] using hit
    simp only [poll, hw, Bool.not_false, if_true]
    rw [poll_of_connected cfg env a t (j + 1) _ hw1]
    exact ⟨by simp [steps_deliver, step_of], hw1⟩
  | k + 1, t + 1, j, w, hk, hw, h, hit => by
    have h0 := h 0 (Nat.succ_pos _)
    have hw1 : (deliver cfg (env.in_poll a j) (k_sleep 500 w)).connected = false := by
      rw [connected_deliver]; simpa [hw] using h0
    obtain ⟨e, c⟩ := poll_hit a k t (j + 1) _ (by omega) hw1
      (fun i hi => by have := h (i + 1) (by omega); rwa [Nat.add_assoc, Nat.add_comm 1 i])
      (by rwa [Nat.add_assoc, Nat.add_comm 1 k])
    simp only [poll, hw, Bool.not_false, if_true]
    refine ⟨?_, c⟩
    rw [e]
    simp [steps_deliver, step_of, List.replicate_succ]

/-! ## One attempt -/

@[simp] theorem net_mgmt_connect_log (ret : Int) (w : World) :
    (net_mgmt_connect ret w).log = w.log ++ [.wifi_connect w.sta_iface w.sta_config ret] := rfl

@[simp] theorem net_mgmt_connect_connected (ret : Int) (w : World) :
    (net_mgmt_connect ret w).connected = w.connected := rfl

@[simp] theorem net_mgmt_connect_sta_config (ret : Int) (w : World) :
    (net_mgmt_connect ret w).sta_config = w.sta_config := rfl

theorem neg_EALREADY_ne_zero : (- EALREADY) ≠ 0 := by decide

/-- An attempt whose request returns `-EALREADY`. -/
theorem attempt_already (a : Nat) (w : World) (h : env.ret a = - EALREADY) :
    attempt cfg env a w =
      ({ deliver cfg (env.in_request a) (net_mgmt_connect (- EALREADY) w) with
          connected := true }, Flow.brk_stored) := by
  have h0 : ¬ (- EALREADY = 0) := neg_EALREADY_ne_zero
  simp only [attempt, h, ne_eq, h0, not_false_eq_true, if_true]

/-- An attempt whose request returns another error. -/
theorem attempt_error (a : Nat) (w : World) (h0 : env.ret a ≠ 0)
    (h1 : env.ret a ≠ - EALREADY) :
    attempt cfg env a w =
      (deliver cfg (env.in_backoff a)
        (k_sleep 3000 (deliver cfg (env.in_request a) (net_mgmt_connect (env.ret a) w))),
        Flow.cont) := by
  simp [attempt, h0, h1]

/-- An attempt whose request is accepted. -/
theorem attempt_accepted (a : Nat) (w : World) (h : env.ret a = 0) :
    attempt cfg env a w =
      (deliver cfg (env.at_check a)
        (poll cfg env a 30 0 (deliver cfg (env.in_request a) (net_mgmt_connect 0 w))),
        if (deliver cfg (env.at_check a)
          (poll cfg env a 30 0 (deliver cfg (env.in_request a)
            (net_mgmt_connect 0 w)))).connected = true then Flow.brk else Flow.cont) := by
  simp only [attempt, h, ne_eq, not_true_eq_false, if_false]
  split_ifs <;> rfl

/-- Every attempt makes one connect request, followed only by sleeps; after
`-EALREADY` nothing follows, the flag is set and the loop is left right after
the store, which happens in no other case. -/
theorem attempt_steps (a : Nat) (w : World) :
    ∃ tail, steps (attempt cfg env a w).1.log =
        steps w.log ++ Step.request (env.ret a) :: tail ∧
      tail.countP is_request = 0 ∧
      (env.ret a = - EALREADY →
        tail = [] ∧ (attempt cfg env a w).2 = Flow.brk_stored ∧
          (attempt cfg env a w).1.connected = true) ∧
      (env.ret a ≠ - EALREADY → (attempt cfg env a w).2 ≠ Flow.brk_stored) := by
  by_cases h0 : env.ret a = 0
  · obtain ⟨n, -, e⟩ := poll_steps cfg env a 30 0
      (deliver cfg (env.in_request a) (net_mgmt_connect 0 w))
    refine ⟨List.replicate n (Step.sleep 500), ?_, ?_, ?_, ?_⟩
    · rw [attempt_accepted cfg env a w h0]
      simp [steps_deliver, e, step_of, h0]
    · simp [List.countP_replicate, is_request]
    · intro h; rw [h0] at h; exact absurd h.symm neg_EALREADY_ne_zero
    · intro _
      rw [attempt_accepted cfg env a w h0]
      split_ifs <;> simp
  · by_cases h1 : env.ret a = - EALREADY
    · refine ⟨[], ?_, rfl, ?_, fun h => absurd h1 h⟩
      · rw [attempt_already cfg env a w h1]
        simp [steps_deliver, step_of, h1]
      · intro _; rw [attempt_already cfg env a w h1]; exact ⟨rfl, rfl, rfl⟩
    · refine ⟨[Step.sleep 3000], ?_, by simp [is_request], fun h => absurd h h1, fun _ => ?_⟩
      · rw [attempt_error cfg env a w h0 h1]
        simp [steps_deliver, step_of]
      · rw [attempt_error cfg env a w h0 h1]
        simp

theorem attempt_sta_config (a : Nat) (w : World) :
    (attempt cfg env a w).1.sta_config = w.sta_config := by
  by_cases h0 : env.ret a = 0
  · rw [attempt_accepted cfg env a w h0]
    simp [sta_config_deliver, poll_sta_config]
  · by_cases h1 : env.ret a = - EALREADY
    · rw [attempt_already cfg env a w h1]
      simp [sta_config_deliver]
    · rw [attempt_error cfg env a w h0 h1]
      simp [sta_config_deliver]

theorem attempt_requested (a : Nat) (w : World) :
    requested (attempt cfg env a w).1.log = requested w.log ++ [w.sta_config] := by
  by_cases h0 : env.ret a = 0
  · rw [attempt_accepted cfg env a w h0]
    simp [requested_deliver, poll_requested, params_of]
  · by_cases h1 : env.ret a = - EALREADY
    · rw [attempt_already cfg env a w h1]
      simp [requested_deliver, params_of]
    · rw [attempt_error cfg env a w h0 h1]
      simp [requested_deliver, params_of]

/-! ## The retry loop -/

/-- In a list that ends with the only occurrence of `x`, nothing follows `x`. -/
theorem nil_of_append_singleton_eq {α : Type} (x : α) :
    ∀ (P pre post : List α), P ++ [x] = pre ++ x :: post → x ∉ P → post = []
  | [], [], post, h, _ => by simpa using h.symm
  | [], _ :: pre, post, h, _ => by
    simp at h
  | y :: P, [], post, h, hx => by
    simp only [List.cons_append, List.nil_append, List.cons.injEq] at h
    exact absurd (h.1 ▸ List.mem_cons_self y P) hx
  | y :: P, z :: pre, post, h, hx => by
    simp at h
    exact nil_of_append_singleton_eq x P pre post h.2 (fun m => hx (List.mem_cons_of_mem _ m))

/-- The retry loop makes at most `r` requests; a request that returned
`-EALREADY` is the last step of the loop, and the loop is then left right after
the store `connected = true`, which happens in no other case. -/
theorem retry_loop_steps : ∀ (r : Nat) (w : World),
    ∃ l, steps (retry_loop cfg env r w).1.log = steps w.log ++ l ∧
      l.countP is_request ≤ r ∧
      ((Step.request (- EALREADY) ∉ l ∧ (retry_loop cfg env r w).2 = false) ∨
        ∃ P, l = P ++ [Step.request (- EALREADY)] ∧ Step.request (- EALREADY) ∉ P ∧
          (retry_loop cfg env r w).1.connected = true ∧
          (retry_loop cfg env r w).2 = true)
  | 0, w => ⟨[], by simp [retry_loop], by simp, Or.inl ⟨by simp, rfl⟩⟩
  | r + 1, w => by
    obtain ⟨tail, e, hc, hal, hne⟩ := attempt_steps cfg env (2 - r) w
    have htail : ∀ x, Step.request x ∉ tail := fun x hx => by
      have := (List.countP_eq_zero.mp hc) _ hx
      simp [is_request] at this
    have hpre : env.ret (2 - r) ≠ - EALREADY →
        Step.request (- EALREADY) ∉ Step.request (env.ret (2 - r)) :: tail := by
      intro h1 hm
      rcases List.mem_cons.mp hm with h | h
      · exact h1 (by injection h with h; exact h.symm)
      · exact htail _ h
    have hone : (Step.request (env.ret (2 - r)) :: tail).countP is_request = 1 := by
      simp [List.countP_cons, hc, is_request]
    rcases hat : attempt cfg env (2 - r) w with ⟨w1, f⟩
    rw [hat] at e hal hne
    cases f with
    | brk_stored =>
      have h1 : env.ret (2 - r) = - EALREADY := by
        by_contra h
        exact hne h rfl
      obtain ⟨ht, -, hconn⟩ := hal h1
      refine ⟨Step.request (env.ret (2 - r)) :: tail, by simpa [retry_loop, hat] using e,
        by rw [hone]; omega, Or.inr ⟨[], by simp [ht, h1], by simp, ?_, ?_⟩⟩
      · simpa [retry_loop, hat] using hconn
      · simp [retry_loop, hat]
    | brk =>
      have h1 : env.ret (2 - r) ≠ - EALREADY := by
        intro h
        have := (hal h).2.1
        simp at this
      refine ⟨Step.request (env.ret (2 - r)) :: tail, by simpa [retry_loop, hat] using e,
        by rw [hone]; omega, Or.inl ⟨hpre h1, by simp [retry_loop, hat]⟩⟩
    | cont =>
      have h1 : env.ret (2 - r) ≠ - EALREADY := by
        intro h
        have := (hal h).2.1
        simp at this
      obtain ⟨l, e2, hc2, h3⟩ := retry_loop_steps r w1
      have hrl : retry_loop cfg env (r + 1) w = retry_loop cfg env r w1 := by
        simp only [retry_loop, hat]
      refine ⟨Step.request (env.ret (2 - r)) :: tail ++ l, ?_, ?_, ?_⟩
      · rw [hrl, e2, e]; simp
      · rw [List.countP_append, hone]
        omega
      · rw [hrl]
        rcases h3 with ⟨h3, hb⟩ | ⟨P, hP, hx, hconn, hb⟩
        · left
          refine ⟨fun hm => ?_, hb⟩
          rcases List.mem_append.mp hm with h | h
          · exact hpre h1 h
          · exact h3 h
        · right
          refine ⟨Step.request (env.ret (2 - r)) :: tail ++ P, by simp [hP], ?_, hconn, hb⟩
          intro hm
          rcases List.mem_append.mp hm with h | h
          · exact hpre h1 h
          · exact hx h

theorem retry_loop_sta_config : ∀ (r : Nat) (w : World),
    (retry_loop cfg env r w).1.sta_config = w.sta_config
  | 0, w => rfl
  | r + 1, w => by
    have h := attempt_sta_config cfg env (2 - r) w
    rcases hat : attempt cfg env (2 - r) w with ⟨w1, f⟩
    rw [hat] at h
    cases f with
    | brk_stored => simpa [retry_loop, hat] using h
    | brk => simpa [retry_loop, hat] using h
    | cont => simp only [retry_loop, hat]; rw [retry_loop_sta_config r w1, h]

/-- The world in which `connect_to_wifi` makes its final test. -/
theorem connect_to_wifi_eq (cr : Credentials) (w : World) :
    connect_to_wifi cfg env cr w =
      (if (retry_loop cfg env 3 (loop_entry cfg env cr w)).2 = true then
          (retry_loop cfg env 3 (loop_entry cfg env cr w)).1
        else deliver cfg env.at_exit (retry_loop cfg env 3 (loop_entry cfg env cr w)).1,
        if (if (retry_loop cfg env 3 (loop_entry cfg env cr w)).2 = true then
            (retry_loop cfg env 3 (loop_entry cfg env cr w)).1
          else deliver cfg env.at_exit
            (retry_loop cfg env 3 (loop_entry cfg env cr w)).1).connected = true then 0
        else - EIO) := by
  have hl : deliver cfg env.at_start
      { { w with sta_config := sta_params cr w.sta_config } with connected := false } =
      loop_entry cfg env cr w := rfl
  have hp : (if cr.psk_len > 0 then
        ({ ssid := cr.ssid, ssid_length := cr.ssid_len, psk := cr.psk,
            psk_length := cr.psk_len, channel := WIFI_CHANNEL_ANY,
            band := WIFI_FREQ_BAND_2_4_GHZ,
            security := WIFI_SECURITY_TYPE_PSK } : wifi_connect_req_params)
      else
        { ssid := cr.ssid, ssid_length := cr.ssid_len, psk := cr.psk,
          psk_length := cr.psk_len, channel := WIFI_CHANNEL_ANY,
          band := WIFI_FREQ_BAND_2_4_GHZ,
          security := WIFI_SECURITY_TYPE_NONE }) = sta_params cr w.sta_config := by
    unfold sta_params
    by_cases h : cr.psk_len > 0 <;> simp [h]
  unfold connect_to_wifi
  simp only [hp, hl]
  split_ifs <;> simp_all

/-- The requests and sleeps of a call are those of its retry loop. -/
theorem steps_connect_to_wifi (cr : Credentials) (w : World) :
    steps (connect_to_wifi cfg env cr w).1.log =
      steps (retry_loop cfg env 3 (loop_entry cfg env cr w)).1.log := by
  rw [connect_to_wifi_eq]
  simp only []
  split_ifs
  · rfl
  · rw [steps_deliver]

/-- A call whose loop is not left right after the store handles the inputs
that come before the final test. -/
theorem connect_to_wifi_of_tested (cr : Credentials) (w w1 : World)
    (h : retry_loop cfg env 3 (loop_entry cfg env cr w) = (w1, false)) :
    connect_to_wifi cfg env cr w =
      (deliver cfg env.at_exit w1,
        if (deliver cfg env.at_exit w1).connected = true then 0 else - EIO) := by
  rw [connect_to_wifi_eq, h]
  simp

/-- The three iterations of the retry loop. -/
theorem retry_loop_three (w : World) :
    retry_loop cfg env 3 w =
      match attempt cfg env 0 w with
      | (w1, .brk_stored) => (w1, true)
      | (w1, .brk) => (w1, false)
      | (w1, .cont) =>
        match attempt cfg env 1 w1 with
        | (w2, .brk_stored) => (w2, true)
        | (w2, .brk) => (w2, false)
        | (w2, .cont) =>
          match attempt cfg env 2 w2 with
          | (w3, .brk_stored) => (w3, true)
          | (w3, .brk) => (w3, false)
          | (w3, .cont) => (w3, false) := by
  simp only [retry_loop]

/-- The retry loop from attempt `a` on. -/
theorem retry_loop_step (a : Nat) (ha : a < 3) (wa : World) :
    retry_loop cfg env (3 - a) wa =
      match attempt cfg env a wa with
      | (w1, .brk_stored) => (w1, true)
      | (w1, .brk) => (w1, false)
      | (w1, .cont) => retry_loop cfg env (2 - a) w1 := by
  have h1 : 3 - a = (2 - a) + 1 := by omega
  have h2 : 2 - (2 - a) = a := by omega
  rw [h1]
  simp only [retry_loop, h2]

/-- When the loop gets to attempt `a`, the rest of the loop runs from there. -/
theorem retry_loop_of_before_attempt : ∀ (a : Nat) (w wa : World), a ≤ 3 →
    before_attempt cfg env a w = some wa →
    retry_loop cfg env 3 w = retry_loop cfg env (3 - a) wa
  | 0, w, wa, _, h => by
    simp only [before_attempt, Option.some.injEq] at h
    rw [h]
  | a + 1, w, wa, ha, h => by
    simp only [before_attempt] at h
    cases hb : before_attempt cfg env a w with
    | none => rw [hb] at h; cases h
    | some wb =>
      rw [hb] at h
      rcases hat : attempt cfg env a wb with ⟨w1, f⟩
      simp only [hat] at h
      cases f with
      | brk_stored => cases h
      | brk => cases h
      | cont =>
        simp only [Option.some.injEq] at h
        rw [retry_loop_of_before_attempt a w wb (by omega) hb,
          retry_loop_step cfg env a (by omega) wb, hat]
        simp only
        rw [h, show 2 - a = 3 - (a + 1) by omega]

/-- An accepted attempt during which the flag is never seen set: 30 sleeps,
then the body falls through to the next iteration. -/
theorem attempt_timeout (a : Nat) (w : World) (h0 : env.ret a = 0)
    (hreq : flag_after (env.in_request a) w.connected = false)
    (hpoll : ∀ j, j < 30 → flag_after (env.in_poll a j) false = false)
    (hchk : flag_after (env.at_check a) false = false) :
    steps (attempt cfg env a w).1.log = steps w.log ++ timeout_block ∧
      (attempt cfg env a w).2 = Flow.cont ∧ (attempt cfg env a w).1.connected = false := by
  have hw1 : (deliver cfg (env.in_request a) (net_mgmt_connect 0 w)).connected = false := by
    rw [connected_deliver]; simpa using hreq
  obtain ⟨e, c⟩ := poll_stays_false cfg env a 30 0 _ hw1
    (fun i hi => by simpa using hpoll i hi)
  have hc : (deliver cfg (env.at_check a) (poll cfg env a 30 0
      (deliver cfg (env.in_request a) (net_mgmt_connect 0 w)))).connected = false := by
    rw [connected_deliver, c]; exact hchk
  rw [attempt_accepted cfg env a w h0]
  refine ⟨?_, by simp [hc], hc⟩
  simp only [steps_deliver, e, net_mgmt_connect_log, steps_append, steps_cons, steps_nil,
    step_of, Option.toList, List.append_nil, List.append_assoc, timeout_block,
    List.singleton_append]

/-- An accepted attempt in which the flag is first seen set after `n` poll
sleeps and is still set at the test after the poll loop: `n` sleeps, then
`break`. -/
theorem attempt_success (a n : Nat) (w : World) (h0 : env.ret a = 0) (hn : n ≤ 30)
    (hfirst : flag_after (env.in_request a) w.connected = decide (n = 0))
    (hstay : ∀ j, j + 1 < n → flag_after (env.in_poll a j) false = false)
    (hhit : 0 < n → flag_after (env.in_poll a (n - 1)) false = true)
    (hchk : flag_after (env.at_check a) true = true) :
    steps (attempt cfg env a w).1.log =
        steps w.log ++ Step.request 0 :: List.replicate n (Step.sleep 500) ∧
      (attempt cfg env a w).2 = Flow.brk ∧ (attempt cfg env a w).1.connected = true := by
  have key : steps (poll cfg env a 30 0
        (deliver cfg (env.in_request a) (net_mgmt_connect 0 w))).log =
      steps w.log ++ Step.request 0 :: List.replicate n (Step.sleep 500) ∧
      (poll cfg env a 30 0
        (deliver cfg (env.in_request a) (net_mgmt_connect 0 w))).connected = true := by
    cases n with
    | zero =>
      have hw1 : (deliver cfg (env.in_request a) (net_mgmt_connect 0 w)).connected = true := by
        rw [connected_deliver]; simpa using hfirst
      rw [poll_of_connected cfg env a 30 0 _ hw1]
      exact ⟨by simp [steps_deliver, step_of], hw1⟩
    | succ k =>
      have hw1 : (deliver cfg (env.in_request a) (net_mgmt_connect 0 w)).connected = false := by
        rw [connected_deliver]; simpa using hfirst
      obtain ⟨e, c⟩ := poll_hit cfg env a k 30 0 _ (by omega) hw1
        (fun i hi => by simpa using hstay i (by omega))
        (by simpa using hhit (Nat.succ_pos k))
      refine ⟨?_, c⟩
      rw [e]
      simp [steps_deliver, step_of]
  have hc : (deliver cfg (env.at_check a) (poll cfg env a 30 0
      (deliver cfg (env.in_request a) (net_mgmt_connect 0 w)))).connected = true := by
    rw [connected_deliver, key.2]; exact hchk
  rw [attempt_accepted cfg env a w h0]
  refine ⟨?_, by simp [hc], hc⟩
  simp only [steps_deliver, key.1]

/-- From attempt `a` on, the first step of the loop is the request of attempt `a`. -/
theorem retry_loop_next (a : Nat) (ha : a < 3) (wa : World) :
    ∃ tail, steps (retry_loop cfg env (3 - a) wa).1.log =
      steps wa.log ++ Step.request (env.ret a) :: tail := by
  obtain ⟨t1, e1, -, -, -⟩ := attempt_steps cfg env a wa
  rw [retry_loop_step cfg env a ha wa]
  rcases hat : attempt cfg env a wa with ⟨w1, f⟩
  rw [hat] at e1
  cases f with
  | brk_stored => exact ⟨t1, e1⟩
  | brk => exact ⟨t1, e1⟩
  | cont =>
    obtain ⟨l, e2, -, -⟩ := retry_loop_steps cfg env (2 - a) w1
    exact ⟨t1 ++ l, by simp only [e2]; rw [e1]; simp⟩

/-- The retry loop passes the same parameters with every request it makes. -/
theorem retry_loop_requested : ∀ (r : Nat) (w : World),
    ∃ n, n ≤ r ∧ (0 < r → 0 < n) ∧
      requested (retry_loop cfg env r w).1.log =
        requested w.log ++ List.replicate n w.sta_config
  | 0, w => ⟨0, le_refl _, fun h => absurd h (Nat.lt_irrefl _), by simp [retry_loop]⟩
  | r + 1, w => by
    have h1 := attempt_requested cfg env (2 - r) w
    have h2 := attempt_sta_config cfg env (2 - r) w
    rcases hat : attempt cfg env (2 - r) w with ⟨w1, f⟩
    rw [hat] at h1 h2
    cases f with
    | brk_stored =>
      exact ⟨1, by omega, fun _ => Nat.one_pos, by simpa [retry_loop, hat] using h1⟩
    | brk =>
      exact ⟨1, by omega, fun _ => Nat.one_pos, by simpa [retry_loop, hat] using h1⟩
    | cont =>
      obtain ⟨n, hn, -, e⟩ := retry_loop_requested r w1
      refine ⟨n + 1, by omega, fun _ => Nat.succ_pos _, ?_⟩
      simp only [retry_loop, hat]
      simp only at h1 h2
      rw [e, h1, h2, List.replicate_succ]
      simp

/-- The parameters requested by a call are those requested by its retry loop. -/
theorem requested_connect_to_wifi (cr : Credentials) (w : World) :
    requested (connect_to_wifi cfg env cr w).1.log =
      requested (retry_loop cfg env 3 (loop_entry cfg env cr w)).1.log := by
  rw [connect_to_wifi_eq]
  simp only []
  split_ifs
  · rfl
  · rw [requested_deliver]

theorem steps_loop_entry (cr : Credentials) (w : World) :
    steps (loop_entry cfg env cr w).log = steps w.log := by
  simp [loop_entry, steps_deliver]

theorem connected_loop_entry (cr : Credentials) (w : World) :
    (loop_entry cfg env cr w).connected = flag_after env.at_start false := by
  simp [loop_entry, connected_deliver]

theorem sta_config_loop_entry (cr : Credentials) (w : World) :
    (loop_entry cfg env cr w).sta_config = sta_params cr w.sta_config := by
  simp [loop_entry, sta_config_deliver]

end loops

/-! ## The connect loop: number of requests and the `-EALREADY` short-circuit -/

/-- C1: whatever codes the driver returns and whatever inputs the event thread
and the work queue handle at any point of the call, the log of one call of
`connect_to_wifi` (started empty) holds at most 3 connect requests, and in its
sequence of requests and sleeps no request follows one that returned
`-EALREADY`. -/
theorem connect_to_wifi_at_most_three_requests (cfg : Config) (env : Env)
    (cr : Credentials) (w : World) :
    connect_requests (connect_to_wifi cfg env cr { w with log := [] }).1.log ≤ 3 ∧
      ∀ pre post,
        steps (connect_to_wifi cfg env cr { w with log := [] }).1.log =
          pre ++ Step.request (- EALREADY) :: post →
        ∀ s ∈ post, is_request s = false := by
  obtain ⟨l, e, hc, h3⟩ := retry_loop_steps cfg env 3 (loop_entry cfg env cr { w with log := [] })
  have hs : steps (connect_to_wifi cfg env cr { w with log := [] }).1.log = l := by
    rw [steps_connect_to_wifi, e, steps_loop_entry]
    simp
  refine ⟨by rw [connect_requests_eq, hs]; exact hc, ?_⟩
  intro pre post hdec
  rw [hs] at hdec
  rcases h3 with ⟨h3, -⟩ | ⟨P, hP, hx, -, -⟩
  · exact absurd (hdec ▸ List.mem_append_right pre (List.mem_cons_self _ _)) h3
  · rw [hP] at hdec
    rw [nil_of_append_singleton_eq _ P pre post hdec hx]
    simp

/-- Witness of C1: a first request that returns `-EALREADY` is the only step of
the call. -/
theorem connect_to_wifi_at_most_three_requests_witness :
    connect_requests
        (connect_to_wifi cfg0 (quiet_env (- EALREADY)) cred0 { world0 with log := [] }).1.log
        ≤ 3 ∧
      steps (connect_to_wifi cfg0 (quiet_env (- EALREADY)) cred0
        { world0 with log := [] }).1.log = [] ++ Step.request (- EALREADY) :: [] :=
  have h := connect_to_wifi_at_most_three_requests cfg0 (quiet_env (- EALREADY)) cred0 world0
  have _ := h.2 [] [] (by decide)
  ⟨h.1, by decide⟩

/-- C2: when a connect request of a call of `connect_to_wifi` returned
`-EALREADY`, on whichever attempt, the call is a success: `connected` is set to
true, no sleep (backoff or poll) and no connect request follows that request,
and the call returns 0. -/
theorem connect_to_wifi_already (cfg : Config) (env : Env) (cr : Credentials) (w : World)
    (pre post : List Step)
    (h : steps (connect_to_wifi cfg env cr { w with log := [] }).1.log =
      pre ++ Step.request (- EALREADY) :: post) :
    post = [] ∧
      (connect_to_wifi cfg env cr { w with log := [] }).1.connected = true ∧
      (connect_to_wifi cfg env cr { w with log := [] }).2 = 0 := by
  obtain ⟨l, e, -, h3⟩ := retry_loop_steps cfg env 3 (loop_entry cfg env cr { w with log := [] })
  have hs : steps (connect_to_wifi cfg env cr { w with log := [] }).1.log = l := by
    rw [steps_connect_to_wifi, e, steps_loop_entry]
    simp
  rw [hs] at h
  rcases h3 with ⟨h3, -⟩ | ⟨P, hP, hx, hconn, hb⟩
  · exact absurd (h ▸ List.mem_append_right pre (List.mem_cons_self _ _)) h3
  · rw [hP] at h
    refine ⟨nil_of_append_singleton_eq _ P pre post h hx, ?_, ?_⟩
    · rw [connect_to_wifi_eq]
      simp only [hb, if_true, hconn]
    · rw [connect_to_wifi_eq]
      simp only [hb, if_true, hconn]

/-- Witness of C2: the first request is refused with `-EBUSY`, the second
returns `-EALREADY`. -/
theorem connect_to_wifi_already_witness :
    steps (connect_to_wifi cfg0 env_busy_then_already cred0 { world0 with log := [] }).1.log =
        [Step.request (-16), Step.sleep 3000] ++ Step.request (- EALREADY) :: [] ∧
      (connect_to_wifi cfg0 env_busy_then_already cred0 { world0 with log := [] }).1.connected
        = true ∧
      (connect_to_wifi cfg0 env_busy_then_already cred0 { world0 with log := [] }).2 = 0 :=
  have h := connect_to_wifi_already cfg0 env_busy_then_already cred0 world0
    [Step.request (-16), Step.sleep 3000] [] (by decide)
  ⟨by decide, h.2.1, h.2.2⟩

/-! ## The connect loop: every request refused -/

/-- C3, as amended: when each of the three connect requests returns a non-zero
code other than `-EALREADY`, the call makes exactly three requests, each
followed by one 3000 ms sleep and by no 500 ms sleep; `connected` on exit is
what the inputs handled during the call leave of the initial `false`, and the
call returns `-EIO` exactly when that is `false`.  In particular, when no
successful connect result is handled during the call, `connected` is false on
exit and the call returns `-EIO`. -/
theorem connect_to_wifi_all_refused (cfg : Config) (env : Env) (cr : Credentials) (w : World)
    (h : ∀ a, a < 3 → env.ret a ≠ 0 ∧ env.ret a ≠ - EALREADY) :
    steps (connect_to_wifi cfg env cr { w with log := [] }).1.log =
        [Step.request (env.ret 0), Step.sleep 3000, Step.request (env.ret 1), Step.sleep 3000,
          Step.request (env.ret 2), Step.sleep 3000] ∧
      (connect_to_wifi cfg env cr { w with log := [] }).1.connected =
        flag_after (inputs_when_refused env) false ∧
      (connect_to_wifi cfg env cr { w with log := [] }).2 =
        (if flag_after (inputs_when_refused env) false = true then 0 else - EIO) ∧
      ((∀ i ∈ inputs_when_refused env, is_success i = false) →
        (connect_to_wifi cfg env cr { w with log := [] }).1.connected = false ∧
          (connect_to_wifi cfg env cr { w with log := [] }).2 = - EIO) := by
  have e : retry_loop cfg env 3 (loop_entry cfg env cr { w with log := [] }) =
      (deliver cfg (env.in_backoff 2) (k_sleep 3000 (deliver cfg (env.in_request 2)
        (net_mgmt_connect (env.ret 2)
      (deliver cfg (env.in_backoff 1) (k_sleep 3000 (deliver cfg (env.in_request 1)
        (net_mgmt_connect (env.ret 1)
      (deliver cfg (env.in_backoff 0) (k_sleep 3000 (deliver cfg (env.in_request 0)
        (net_mgmt_connect (env.ret 0)
          (loop_entry cfg env cr { w with log := [] })))))))))))), false) := by
    rw [retry_loop_three,
      attempt_error cfg env 0 _ (h 0 (by decide)).1 (h 0 (by decide)).2]
    simp only
    rw [attempt_error cfg env 1 _ (h 1 (by decide)).1 (h 1 (by decide)).2]
    simp only
    rw [attempt_error cfg env 2 _ (h 2 (by decide)).1 (h 2 (by decide)).2]
  have hc : (connect_to_wifi cfg env cr { w with log := [] }).1.connected =
      flag_after (inputs_when_refused env) false := by
    rw [connect_to_wifi_of_tested cfg env cr _ _ e]
    simp [connected_deliver, connected_loop_entry, inputs_when_refused, flag_after_append]
  have hr : (connect_to_wifi cfg env cr { w with log := [] }).2 =
      (if flag_after (inputs_when_refused env) false = true then 0 else - EIO) := by
    rw [← hc, connect_to_wifi_of_tested cfg env cr _ _ e]
  refine ⟨?_, hc, hr, fun hq => ?_⟩
  · rw [steps_connect_to_wifi, e]
    simp [steps_deliver, steps_loop_entry, step_of]
  · have hf := flag_after_false (inputs_when_refused env) hq
    exact ⟨by rw [hc, hf], by rw [hr, hf]; simp⟩

/-- Witness of C3: the driver answers `-EBUSY` three times and nothing else happens. -/
theorem connect_to_wifi_all_refused_witness :
    steps (connect_to_wifi cfg0 (quiet_env (-16)) cred0 { world0 with log := [] }).1.log =
        [Step.request (-16), Step.sleep 3000, Step.request (-16), Step.sleep 3000,
          Step.request (-16), Step.sleep 3000] ∧
      (connect_to_wifi cfg0 (quiet_env (-16)) cred0 { world0 with log := [] }).1.connected
        = false ∧
      (connect_to_wifi cfg0 (quiet_env (-16)) cred0 { world0 with log := [] }).2 = - EIO :=
  have h := connect_to_wifi_all_refused cfg0 (quiet_env (-16)) cred0 world0
    (fun _ _ => by show (-16 : Int) ≠ 0 ∧ (-16 : Int) ≠ - EALREADY; decide)
  ⟨h.1, h.2.2.2 (by decide)⟩

/-- Counterexample to C3 as stated: all three requests return `-EBUSY`, a
successful connect result is handled during the first backoff, and the call
still makes its three requests but ends with `connected` set and returns 0. -/
theorem refused_then_success_returns_zero :
    env_busy_then_success.ret 0 = -16 ∧ env_busy_then_success.ret 1 = -16 ∧
      env_busy_then_success.ret 2 = -16 ∧
      steps (connect_to_wifi cfg0 env_busy_then_success cred0 world0).1.log =
        [Step.request (-16), Step.sleep 3000, Step.request (-16), Step.sleep 3000,
          Step.request (-16), Step.sleep 3000] ∧
      (connect_to_wifi cfg0 env_busy_then_success cred0 world0).1.connected = true ∧
      (connect_to_wifi cfg0 env_busy_then_success cred0 world0).2 = 0 := by
  refine ⟨rfl, rfl, rfl, by decide, by decide, by decide⟩

/-! ## The connect loop: accepted requests -/

/-- C5: take an accepted request (attempt `a`, started in `wa`) of a call of
`connect_to_wifi` during which `connected` stays false: false at the first poll
test, after each of the 30 poll sleeps and at the test after the poll loop.
Then the attempt makes exactly 30 sleeps of 500 ms (15000 ms) and falls through
to the next iteration; when an attempt remains, the next step of the call is the
next connect request, with no sleep in between; when it was the third attempt
and the flag is still false at the final test, the call returns `-EIO`.  And
when all three requests are accepted and no successful connect result is ever
handled, the call makes exactly 3 requests and 90 poll sleeps and returns
`-EIO`. -/
theorem connect_to_wifi_poll_timeout (cfg : Config) (env : Env) (cr : Credentials)
    (w : World) :
    (∀ a wa, a < 3 →
      before_attempt cfg env a (loop_entry cfg env cr { w with log := [] }) = some wa →
      env.ret a = 0 →
      flag_after (env.in_request a) wa.connected = false →
      (∀ j, j < 30 → flag_after (env.in_poll a j) false = false) →
      flag_after (env.at_check a) false = false →
      steps (attempt cfg env a wa).1.log = steps wa.log ++ timeout_block ∧
        slept timeout_block = 15000 ∧
        (attempt cfg env a wa).2 = Flow.cont ∧
        (a < 2 → ∃ tail,
          steps (connect_to_wifi cfg env cr { w with log := [] }).1.log =
            steps wa.log ++ timeout_block ++ Step.request (env.ret (a + 1)) :: tail) ∧
        (a = 2 → flag_after env.at_exit false = false →
          steps (connect_to_wifi cfg env cr { w with log := [] }).1.log =
              steps wa.log ++ timeout_block ∧
            (connect_to_wifi cfg env cr { w with log := [] }).2 = - EIO)) ∧
    ((∀ a, a < 3 → env.ret a = 0) → no_success env →
      steps (connect_to_wifi cfg env cr { w with log := [] }).1.log =
          timeout_block ++ timeout_block ++ timeout_block ∧
        connect_requests (connect_to_wifi cfg env cr { w with log := [] }).1.log = 3 ∧
        (steps (connect_to_wifi cfg env cr { w with log := [] }).1.log).count
          (Step.sleep 500) = 90 ∧
        (connect_to_wifi cfg env cr { w with log := [] }).2 = - EIO) := by
  have part1 : ∀ a wa, a < 3 →
      before_attempt cfg env a (loop_entry cfg env cr { w with log := [] }) = some wa →
      env.ret a = 0 →
      flag_after (env.in_request a) wa.connected = false →
      (∀ j, j < 30 → flag_after (env.in_poll a j) false = false) →
      flag_after (env.at_check a) false = false →
      steps (attempt cfg env a wa).1.log = steps wa.log ++ timeout_block ∧
        slept timeout_block = 15000 ∧
        (attempt cfg env a wa).2 = Flow.cont ∧
        (a < 2 → ∃ tail,
          steps (connect_to_wifi cfg env cr { w with log := [] }).1.log =
            steps wa.log ++ timeout_block ++ Step.request (env.ret (a + 1)) :: tail) ∧
        (a = 2 → flag_after env.at_exit false = false →
          steps (connect_to_wifi cfg env cr { w with log := [] }).1.log =
              steps wa.log ++ timeout_block ∧
            (connect_to_wifi cfg env cr { w with log := [] }).2 = - EIO) := by
    intro a wa ha hreach h0 hreq hpoll hchk
    obtain ⟨e, f, c⟩ := attempt_timeout cfg env a wa h0 hreq hpoll hchk
    have hat : attempt cfg env a wa = ((attempt cfg env a wa).1, Flow.cont) := Prod.ext rfl f
    have hloop : retry_loop cfg env 3 (loop_entry cfg env cr { w with log := [] }) =
        retry_loop cfg env (2 - a) (attempt cfg env a wa).1 := by
      rw [retry_loop_of_before_attempt cfg env a _ wa (by omega) hreach,
        retry_loop_step cfg env a ha wa, hat]
    refine ⟨e, by decide, f, fun ha2 => ?_, fun ha2 hexit => ?_⟩
    · obtain ⟨tail, et⟩ := retry_loop_next cfg env (a + 1) (by omega) (attempt cfg env a wa).1
      refine ⟨tail, ?_⟩
      rw [steps_connect_to_wifi, hloop, show 2 - a = 3 - (a + 1) by omega, et, e]
    · subst ha2
      have hl : retry_loop cfg env 3 (loop_entry cfg env cr { w with log := [] }) =
          ((attempt cfg env 2 wa).1, false) := by rw [hloop]; rfl
      rw [connect_to_wifi_of_tested cfg env cr _ _ hl]
      simp only [steps_deliver, connected_deliver, c, hexit, e]
      simp
  refine ⟨part1, fun hret hq => ?_⟩
  obtain ⟨q1, q2, -, q4, q5, q6⟩ := hq
  have f1 : ∀ a, flag_after (env.in_request a) false = false :=
    fun a => flag_after_false _ (q2 a)
  have f2 : ∀ a j, j < 30 → flag_after (env.in_poll a j) false = false :=
    fun a j _ => flag_after_false _ (q4 a j)
  have f3 : ∀ a, flag_after (env.at_check a) false = false :=
    fun a => flag_after_false _ (q5 a)
  have c0 : (loop_entry cfg env cr { w with log := [] }).connected = false := by
    rw [connected_loop_entry]; exact flag_after_false _ q1
  obtain ⟨e0, g0, d0⟩ := attempt_timeout cfg env 0 _ (hret 0 (by decide))
    (by rw [c0]; exact f1 0) (f2 0) (f3 0)
  have r1 : before_attempt cfg env 1 (loop_entry cfg env cr { w with log := [] }) =
      some (attempt cfg env 0 (loop_entry cfg env cr { w with log := [] })).1 := by
    simp only [before_attempt]
    rw [show attempt cfg env 0 (loop_entry cfg env cr { w with log := [] }) =
      ((attempt cfg env 0 (loop_entry cfg env cr { w with log := [] })).1, Flow.cont)
      from Prod.ext rfl g0]
  obtain ⟨e1, g1, d1⟩ := attempt_timeout cfg env 1 _ (hret 1 (by decide))
    (by rw [d0]; exact f1 1) (f2 1) (f3 1)
  have r2 : before_attempt cfg env 2 (loop_entry cfg env cr { w with log := [] }) =
      some (attempt cfg env 1
        (attempt cfg env 0 (loop_entry cfg env cr { w with log := [] })).1).1 := by
    rw [before_attempt, r1]
    simp only
    rw [show attempt cfg env 1 (attempt cfg env 0
        (loop_entry cfg env cr { w with log := [] })).1 =
      ((attempt cfg env 1 (attempt cfg env 0
        (loop_entry cfg env cr { w with log := [] })).1).1, Flow.cont)
      from Prod.ext rfl g1]
  obtain ⟨-, -, -, -, last⟩ := part1 2 _ (by decide) r2 (hret 2 (by decide))
    (by rw [d1]; exact f1 2) (f2 2) (f3 2)
  obtain ⟨es, er⟩ := last rfl (flag_after_false _ q6)
  have hs : steps (connect_to_wifi cfg env cr { w with log := [] }).1.log =
      timeout_block ++ timeout_block ++ timeout_block := by
    rw [es, e1, e0, steps_loop_entry]; simp
  refine ⟨hs, ?_, ?_, er⟩
  · rw [connect_requests_eq, hs]; decide
  · rw [hs]; decide

/-- Witness of C5: three accepted requests and no event at all. -/
theorem connect_to_wifi_poll_timeout_witness :
    (steps (attempt cfg0 (quiet_env 0) 0
          (loop_entry cfg0 (quiet_env 0) cred0 { world0 with log := [] })).1.log =
        steps (loop_entry cfg0 (quiet_env 0) cred0 { world0 with log := [] }).log ++
          timeout_block ∧
      (attempt cfg0 (quiet_env 0) 0
        (loop_entry cfg0 (quiet_env 0) cred0 { world0 with log := [] })).2 = Flow.cont) ∧
    (steps (connect_to_wifi cfg0 (quiet_env 0) cred0 { world0 with log := [] }).1.log =
        timeout_block ++ timeout_block ++ timeout_block ∧
      (connect_to_wifi cfg0 (quiet_env 0) cred0 { world0 with log := [] }).2 = - EIO) :=
  have h := connect_to_wifi_poll_timeout cfg0 (quiet_env 0) cred0 world0
  have h1 := h.1 0 _ (by decide) rfl rfl (by decide) (fun _ _ => rfl) rfl
  have h2 := h.2 (fun _ _ => rfl) (by simp [no_success, quiet_env])
  ⟨⟨h1.1, h1.2.2.1⟩, h2.1, h2.2.2.2⟩

/-- C4, as amended: take an accepted request (attempt `a`, started in `wa`) of
a call of `connect_to_wifi` for which `connected` is first seen set after `n`
poll sleeps (`n = 0`: set at the first poll test; `1 ≤ n ≤ 30`: clear at the
tests before, set by the inputs handled during sleep `n`, the last sleep
included), and which no later input clears before the test after the poll loop
and before the final test.  Then the call makes no sleep after the `n`-th and no
further request, `connected` is set on exit and the call returns 0. -/
theorem connect_to_wifi_success_during_poll (cfg : Config) (env : Env) (cr : Credentials)
    (w : World) (a n : Nat) (wa : World) (ha : a < 3) (hn : n ≤ 30)
    (hreach : before_attempt cfg env a (loop_entry cfg env cr { w with log := [] }) = some wa)
    (h0 : env.ret a = 0)
    (hfirst : flag_after (env.in_request a) wa.connected = decide (n = 0))
    (hstay : ∀ j, j + 1 < n → flag_after (env.in_poll a j) false = false)
    (hhit : 0 < n → flag_after (env.in_poll a (n - 1)) false = true)
    (hchk : flag_after (env.at_check a) true = true)
    (hexit : flag_after env.at_exit true = true) :
    steps (connect_to_wifi cfg env cr { w with log := [] }).1.log =
        steps wa.log ++ Step.request 0 :: List.replicate n (Step.sleep 500) ∧
      (connect_to_wifi cfg env cr { w with log := [] }).1.connected = true ∧
      (connect_to_wifi cfg env cr { w with log := [] }).2 = 0 := by
  obtain ⟨e, f, c⟩ := attempt_success cfg env a n wa h0 hn hfirst hstay hhit hchk
  have hat : attempt cfg env a wa = ((attempt cfg env a wa).1, Flow.brk) := Prod.ext rfl f
  have hloop : retry_loop cfg env 3 (loop_entry cfg env cr { w with log := [] }) =
      ((attempt cfg env a wa).1, false) := by
    rw [retry_loop_of_before_attempt cfg env a _ wa (by omega) hreach,
      retry_loop_step cfg env a ha wa, hat]
  rw [connect_to_wifi_of_tested cfg env cr _ _ hloop]
  simp only [steps_deliver, connected_deliver, c, hexit, e]
  simp

/-- Witness of C4: the first request is accepted and a successful connect
result is handled during the last poll sleep. -/
theorem connect_to_wifi_success_during_poll_witness :
    steps (connect_to_wifi cfg0 env_success_in_last_sleep cred0
        { world0 with log := [] }).1.log = timeout_block ∧
      (connect_to_wifi cfg0 env_success_in_last_sleep cred0
        { world0 with log := [] }).1.connected = true ∧
      (connect_to_wifi cfg0 env_success_in_last_sleep cred0 { world0 with log := [] }).2 = 0 :=
  connect_to_wifi_success_during_poll cfg0 env_success_in_last_sleep cred0 world0 0 30
    (loop_entry cfg0 env_success_in_last_sleep cred0 { world0 with log := [] })
    (by decide) (by decide) rfl rfl (by decide)
    (fun j hj => by
      have h : ¬ (j = 29) := by omega
      simp [env_success_in_last_sleep, quiet_env, h, flag_after])
    (fun _ => by decide) (by decide) (by decide)

set_option maxRecDepth 20000 in
/-- Counterexample to C4 as stated: the first request is accepted, a successful
connect result sets `connected` during the first poll sleep and a disconnect
result handled during the same sleep clears it; the poll loop goes on sleeping,
two more requests are made and the call returns `-EIO`. -/
theorem success_then_disconnect_times_out :
    env_success_then_disconnect.ret 0 = 0 ∧
      env_success_then_disconnect.in_poll 0 0 =
        [Input.event (Event.CONNECT_RESULT 0) 2, Input.event Event.DISCONNECT_RESULT 2] ∧
      (sys_step cfg0 (Input.event (Event.CONNECT_RESULT 0) 2) world0).connected = true ∧
      steps (connect_to_wifi cfg0 env_success_then_disconnect cred0 world0).1.log =
        timeout_block ++ timeout_block ++ timeout_block ∧
      (connect_to_wifi cfg0 env_success_then_disconnect cred0 world0).2 = - EIO := by
  refine ⟨rfl, rfl, rfl, by decide, by decide⟩

/-! ## The event handler -/

/-- An input that is not a successful connect result leaves an idle work item
idle and does not run the handler of the work item. -/
theorem sys_step_idle (cfg : Config) (i : Input) (w : World) (hw : w.ip_config_work = none)
    (hi : is_success i = false) :
    (sys_step cfg i w).ip_config_work = none ∧
      (sys_step cfg i w).log.count Action.work_run = w.log.count Action.work_run := by
  cases i with
  | event e iface =>
    cases e with
    | CONNECT_RESULT status =>
      have hs : status ≠ 0 := by simpa [is_success] using hi
      simp [sys_step, wifi_event_handler, hs, hw]
    | DISCONNECT_RESULT =>
      simp [sys_step, wifi_event_handler, k_work_cancel_delayable, net_dhcpv4_stop,
        List.count_append]
    | _ => simp [sys_step, wifi_event_handler, hw]
  | elapse ms => simp [sys_step, elapse, hw]

theorem deliver_idle (cfg : Config) (ins : List Input) (w : World)
    (hw : w.ip_config_work = none) (hi : ∀ i ∈ ins, is_success i = false) :
    (deliver cfg ins w).ip_config_work = none ∧
      (deliver cfg ins w).log.count Action.work_run = w.log.count Action.work_run := by
  induction ins generalizing w with
  | nil => exact ⟨hw, rfl⟩
  | cons i ins ih =>
    obtain ⟨h1, h2⟩ := sys_step_idle cfg i w hw (hi i (List.mem_cons_self _ _))
    obtain ⟨h3, h4⟩ := ih (sys_step cfg i w) h1 (fun j hj => hi j (List.mem_cons_of_mem _ hj))
    exact ⟨by simpa [deliver] using h3, by simpa [deliver, h2] using h4⟩

/-- C6: in every world, handling a disconnect result cancels the delayed work
item, stops the DHCP client on the interface of the event and clears
`connected`; afterwards the work item is idle, and however time passes and
whatever events other than a successful connect result are handled, the handler
of the work item is not run and the work item stays idle. -/
theorem disconnect_cancels_deferred_task (cfg : Config) (iface : Nat) (w : World) :
    (wifi_event_handler .DISCONNECT_RESULT iface w).connected = false ∧
      (wifi_event_handler .DISCONNECT_RESULT iface w).ip_config_work = none ∧
      ((wifi_event_handler .DISCONNECT_RESULT iface w).ifs iface).dhcpv4_client = false ∧
      (wifi_event_handler .DISCONNECT_RESULT iface w).log =
        w.log ++ [Action.work_cancel, Action.dhcpv4_stop iface] ∧
      ∀ ins : List Input, (∀ i ∈ ins, is_success i = false) →
        (deliver cfg ins (wifi_event_handler .DISCONNECT_RESULT iface w)).ip_config_work = none ∧
          (deliver cfg ins (wifi_event_handler .DISCONNECT_RESULT iface w)).log.count
            Action.work_run = w.log.count Action.work_run := by
  have hlog : (wifi_event_handler .DISCONNECT_RESULT iface w).log =
      w.log ++ [Action.work_cancel, Action.dhcpv4_stop iface] := by
    simp [wifi_event_handler, k_work_cancel_delayable, net_dhcpv4_stop]
  have hidle : (wifi_event_handler .DISCONNECT_RESULT iface w).ip_config_work = none := by
    simp [wifi_event_handler, k_work_cancel_delayable, net_dhcpv4_stop]
  refine ⟨by simp [wifi_event_handler, k_work_cancel_delayable, net_dhcpv4_stop], hidle,
    by simp [wifi_event_handler, k_work_cancel_delayable, net_dhcpv4_stop], hlog, ?_⟩
  intro ins hins
  obtain ⟨h1, h2⟩ := deliver_idle cfg ins _ hidle hins
  refine ⟨h1, ?_⟩
  rw [h2, hlog]
  simp [List.count_append]

/-- Witness of C6: a task armed by a successful connect result runs when 5000 ms
pass, and does not run when a disconnect result is handled first. -/
theorem disconnect_cancels_deferred_task_witness :
    (deliver cfg0 [Input.elapse 5000]
        (wifi_event_handler (.CONNECT_RESULT 0) 2 world0)).log.count Action.work_run = 1 ∧
      (deliver cfg0 inputs_without_success
        (wifi_event_handler .DISCONNECT_RESULT 2
          (wifi_event_handler (.CONNECT_RESULT 0) 2 world0))).log.count Action.work_run = 0 :=
  ⟨by decide,
    ((disconnect_cancels_deferred_task cfg0 2
      (wifi_event_handler (.CONNECT_RESULT 0) 2 world0)).2.2.2.2 inputs_without_success
        (by decide)).2.trans (by decide)⟩

/-- C7: for a connect result with status 0 the handler records the interface of
the event in `sta_iface`, sets `connected`, brings the interface up, stops the
DHCP client on it and schedules the work item with a delay of 3000 ms, so that
its handler `ip_config_work_handler` runs once 3000 ms have passed and not
before; for a non-zero status the handler clears `connected` and does nothing
else: `sta_iface`, the work item and the log are unchanged. -/
theorem wifi_event_handler_connect_result (cfg : Config) (status : Int) (iface : Nat)
    (w : World) :
    (status = 0 →
      (wifi_event_handler (.CONNECT_RESULT status) iface w).sta_iface = some iface ∧
      (wifi_event_handler (.CONNECT_RESULT status) iface w).connected = true ∧
      ((wifi_event_handler (.CONNECT_RESULT status) iface w).ifs iface).dhcpv4_client = false ∧
      (wifi_event_handler (.CONNECT_RESULT status) iface w).ip_config_work = some 3000 ∧
      (wifi_event_handler (.CONNECT_RESULT status) iface w).log =
        w.log ++ [Action.if_up iface, Action.dhcpv4_stop iface, Action.work_schedule 3000] ∧
      (∀ ms, ms < 3000 →
        elapse cfg ms (wifi_event_handler (.CONNECT_RESULT status) iface w) =
          { wifi_event_handler (.CONNECT_RESULT status) iface w with
            ip_config_work := some (3000 - ms) }) ∧
      (∀ ms, 3000 ≤ ms →
        elapse cfg ms (wifi_event_handler (.CONNECT_RESULT status) iface w) =
          ip_config_work_handler cfg (record Action.work_run
            { wifi_event_handler (.CONNECT_RESULT status) iface w with
              ip_config_work := none }))) ∧
    (status ≠ 0 →
      wifi_event_handler (.CONNECT_RESULT status) iface w = { w with connected := false }) := by
  constructor
  · intro h
    subst h
    have hwork : (wifi_event_handler (.CONNECT_RESULT 0) iface w).ip_config_work =
        some 3000 := by
      simp [wifi_event_handler, k_work_schedule, k_work_init_delayable, net_dhcpv4_stop,
        net_if_up]
    refine ⟨?_, ?_, ?_, hwork, ?_, ?_, ?_⟩
    · simp [wifi_event_handler, k_work_schedule, k_work_init_delayable, net_dhcpv4_stop,
        net_if_up]
    · simp [wifi_event_handler, k_work_schedule, k_work_init_delayable, net_dhcpv4_stop,
        net_if_up]
    · simp [wifi_event_handler, k_work_schedule, k_work_init_delayable, net_dhcpv4_stop,
        net_if_up]
    · simp [wifi_event_handler, k_work_schedule, k_work_init_delayable, net_dhcpv4_stop,
        net_if_up]
    · intro ms hms
      simp only [elapse, hwork]
      rw [if_neg (by omega)]
    · intro ms hms
      simp only [elapse, hwork]
      rw [if_pos hms]
  · intro h
    simp [wifi_event_handler, h]

/-- Witness of C7: a successful and a failed connect result for interface 2. -/
theorem wifi_event_handler_connect_result_witness :
    (wifi_event_handler (.CONNECT_RESULT 0) 2 world0).ip_config_work = some 3000 ∧
      (wifi_event_handler (.CONNECT_RESULT 0) 2 world0).log =
        [Action.if_up 2, Action.dhcpv4_stop 2, Action.work_schedule 3000] ∧
      (elapse cfg0 2999 (wifi_event_handler (.CONNECT_RESULT 0) 2 world0)).ip_config_work =
        some 1 ∧
      (wifi_event_handler (.CONNECT_RESULT (-1)) 2 { world0 with connected := true }).connected
        = false :=
  have h := (wifi_event_handler_connect_result cfg0 0 2 world0).1 rfl
  have hf := (wifi_event_handler_connect_result cfg0 (-1) 2
    { world0 with connected := true }).2 (by decide)
  ⟨h.2.2.2.1, h.2.2.2.2.1, by rw [h.2.2.2.2.2.1 2999 (by decide)],
    by rw [hf]⟩

/-! ## Security mode -/

/-- What `enable_ap_mode` leaves in the security and PSK length of `ap_config`. -/
theorem ap_config_enable_ap_mode (cfg : Config) (dhcp_ret ap_ret : Int) (w : World) :
    (enable_ap_mode cfg dhcp_ret ap_ret w).1.ap_config.security =
        (if cfg.AP_PSK.length = 0 then WIFI_SECURITY_TYPE_NONE
          else WIFI_SECURITY_TYPE_PSK) ∧
      (enable_ap_mode cfg dhcp_ret ap_ret w).1.ap_config.psk_length =
        cfg.AP_PSK.length % 256 := by
  unfold enable_ap_mode
  by_cases hd : cfg.NET_DHCPV4_SERVER = true <;> by_cases hp : cfg.AP_PSK.length = 0 <;>
    simp [hd, hp, (ap_config_enable_dhcpv4_server cfg dhcp_ret _).1]

/-- C8, as amended: the security mode depends only on whether the PSK is
empty.  Every connect request of a call of `connect_to_wifi` (there is at least
one, at most three) carries the parameters `sta_params`, whose security is
`WIFI_SECURITY_TYPE_NONE` when `get_current_psk_len()` is 0 and
`WIFI_SECURITY_TYPE_PSK` otherwise, whatever the SSID, the PSK bytes and the
previous content of `sta_config`; `enable_ap_mode` sets the security of
`ap_config` to `WIFI_SECURITY_TYPE_NONE` with `psk_length` 0 when the configured
AP PSK is the empty string, and to `WIFI_SECURITY_TYPE_PSK` otherwise, with
`psk_length` the length of the string modulo 256, which is the length of the
string when that is less than 256; the AP enable request is made with these
parameters. -/
theorem security_from_psk_length (cfg : Config) (env : Env) (cr : Credentials) (w : World)
    (dhcp_ret ap_ret : Int) :
    (∃ n, 1 ≤ n ∧ n ≤ 3 ∧
      requested (connect_to_wifi cfg env cr { w with log := [] }).1.log =
        List.replicate n (sta_params cr w.sta_config)) ∧
      (sta_params cr w.sta_config).security =
        (if cr.psk_len = 0 then WIFI_SECURITY_TYPE_NONE else WIFI_SECURITY_TYPE_PSK) ∧
      (sta_params cr w.sta_config).psk_length = cr.psk_len ∧
      (enable_ap_mode cfg dhcp_ret ap_ret w).1.ap_config.security =
        (if cfg.AP_PSK.length = 0 then WIFI_SECURITY_TYPE_NONE
          else WIFI_SECURITY_TYPE_PSK) ∧
      (enable_ap_mode cfg dhcp_ret ap_ret w).1.ap_config.psk_length =
        cfg.AP_PSK.length % 256 ∧
      (cfg.AP_PSK.length < 256 →
        (enable_ap_mode cfg dhcp_ret ap_ret w).1.ap_config.psk_length = cfg.AP_PSK.length) ∧
      (enable_ap_mode cfg dhcp_ret ap_ret w).1.log.getLast? =
        some (Action.wifi_ap_enable w.ap_iface
          (enable_ap_mode cfg dhcp_ret ap_ret w).1.ap_config ap_ret) := by
  have hlen := (ap_config_enable_ap_mode cfg dhcp_ret ap_ret w).2
  refine ⟨?_, ?_, ?_, ?_, hlen, fun hlt => by rw [hlen, Nat.mod_eq_of_lt hlt], ?_⟩
  · obtain ⟨n, hn, hpos, e⟩ := retry_loop_requested cfg env 3
      (loop_entry cfg env cr { w with log := [] })
    refine ⟨n, hpos (by decide), hn, ?_⟩
    rw [requested_connect_to_wifi, e, sta_config_loop_entry]
    simp [loop_entry, requested_deliver]
  · unfold sta_params
    by_cases h : cr.psk_len = 0
    · simp [h]
    · have : cr.psk_len > 0 := Nat.pos_of_ne_zero h
      simp [h, this]
  · unfold sta_params
    by_cases h : cr.psk_len > 0 <;> simp [h]
  · exact (ap_config_enable_ap_mode cfg dhcp_ret ap_ret w).1
  · unfold enable_ap_mode
    by_cases hd : cfg.NET_DHCPV4_SERVER = true <;> by_cases hp : cfg.AP_PSK.length = 0 <;>
      simp [hd, hp, (ap_config_enable_dhcpv4_server cfg dhcp_ret _).1,
        (ap_config_enable_dhcpv4_server cfg dhcp_ret _).2]

/-- Witness of C8: an open and a protected network, an open AP and an AP with a
PSK of 8 bytes. -/
theorem security_from_psk_length_witness :
    (sta_params cred0 blank_params).security = WIFI_SECURITY_TYPE_NONE ∧
      (sta_params cred_psk blank_params).security = WIFI_SECURITY_TYPE_PSK ∧
      (enable_ap_mode cfg0 0 0 world0).1.ap_config.security = WIFI_SECURITY_TYPE_NONE ∧
      (enable_ap_mode { cfg0 with AP_PSK := [49, 50, 51, 52, 53, 54, 55, 56] } 0 0
        world0).1.ap_config.psk_length = 8 :=
  ⟨(security_from_psk_length cfg0 (quiet_env 0) cred0 world0 0 0).2.1,
    (security_from_psk_length cfg0 (quiet_env 0) cred_psk world0 0 0).2.1,
    (security_from_psk_length cfg0 (quiet_env 0) cred0 world0 0 0).2.2.2.1,
    (security_from_psk_length { cfg0 with AP_PSK := [49, 50, 51, 52, 53, 54, 55, 56] }
      (quiet_env 0) cred0 world0 0 0).2.2.2.2.2.1 (by decide)⟩

/-- Counterexample to C8 as stated: with an AP PSK of 256 bytes `enable_ap_mode`
selects `WIFI_SECURITY_TYPE_PSK` and stores 0, not 256, in `psk_length`. -/
theorem long_psk_length_wraps :
    cfg_long_psk.AP_PSK.length = 256 ∧
      (enable_ap_mode cfg_long_psk 0 0 world0).1.ap_config.security =
        WIFI_SECURITY_TYPE_PSK ∧
      (enable_ap_mode cfg_long_psk 0 0 world0).1.ap_config.psk_length = 0 := by
  have hl : cfg_long_psk.AP_PSK.length = 256 := by
    show (List.replicate 256 97).length = 256
    exact List.length_replicate _ _
  have h := ap_config_enable_ap_mode cfg_long_psk 0 0 world0
  rw [hl] at h
  exact ⟨hl, h.1, h.2⟩

/-! ## Static addressing -/

theorem sta_iface_ip_config_work_handler (cfg : Config) (w : World) :
    (ip_config_work_handler cfg w).sta_iface = w.sta_iface := by
  unfold ip_config_work_handler
  repeat (first
    | rfl
    | split
    | simp [net_dhcpv4_stop, net_if_ipv4_addr_rm,
        net_if_ipv4_set_netmask, net_if_ipv4_set_gw])

@[simp] theorem addr_add_ifs (i : Nat) (a : in_addr) (w : World) :
    (net_if_ipv4_addr_add i a w).1.ifs =
      if a ∈ (w.ifs i).addrs then w.ifs
      else if (w.ifs i).addrs.card < (w.ifs i).max_addrs then
        Function.update w.ifs i { w.ifs i with addrs := insert a (w.ifs i).addrs }
      else w.ifs := by
  unfold net_if_ipv4_addr_add; split_ifs <;> simp

@[simp] theorem addr_add_ok (i : Nat) (a : in_addr) (w : World) :
    (net_if_ipv4_addr_add i a w).2 =
      (decide (a ∈ (w.ifs i).addrs) || decide ((w.ifs i).addrs.card < (w.ifs i).max_addrs)) := by
  unfold net_if_ipv4_addr_add; split_ifs <;> simp [*]

/-- What `ip_config_work_handler` does to the interface table. -/
theorem ifs_ip_config_work_handler (cfg : Config) (w : World) :
    (ip_config_work_handler cfg w).ifs =
      match w.sta_iface with
      | none => w.ifs
      | some sta =>
        match cfg.MY_IPV4_ADDR, cfg.MY_IPV4_NETMASK, cfg.MY_IPV4_GW with
        | some ip, some m, some g =>
          if ((w.ifs sta).addrs.erase ip).card < (w.ifs sta).max_addrs then
            Function.update w.ifs sta
              { w.ifs sta with
                dhcpv4_client := false, addrs := insert ip ((w.ifs sta).addrs.erase ip),
                netmask := some m, gw := some g }
          else
            Function.update w.ifs sta
              { w.ifs sta with dhcpv4_client := false, addrs := (w.ifs sta).addrs.erase ip }
        | _, _, _ => Function.update w.ifs sta { w.ifs sta with dhcpv4_client := false } := by
  unfold ip_config_work_handler
  cases h1 : w.sta_iface with
  | none => rfl
  | some sta =>
    cases h2 : cfg.MY_IPV4_ADDR with
    | none => simp [net_dhcpv4_stop]
    | some ip =>
      cases h3 : cfg.MY_IPV4_NETMASK with
      | none => simp [net_dhcpv4_stop]
      | some m =>
        cases h4 : cfg.MY_IPV4_GW with
        | none => simp [net_dhcpv4_stop]
        | some g =>
          by_cases hc : ((w.ifs sta).addrs.erase ip).card < (w.ifs sta).max_addrs
          · simp [net_dhcpv4_stop, net_if_ipv4_addr_rm, net_if_ipv4_set_netmask,
              net_if_ipv4_set_gw, hc]
          · simp [net_dhcpv4_stop, net_if_ipv4_addr_rm, net_if_ipv4_set_netmask,
              net_if_ipv4_set_gw, hc]

/-- What `ip_config_work_handler` adds to the log. -/
theorem log_ip_config_work_handler (cfg : Config) (w : World) :
    (ip_config_work_handler cfg w).log =
      match w.sta_iface with
      | none => w.log
      | some sta =>
        match cfg.MY_IPV4_ADDR, cfg.MY_IPV4_NETMASK, cfg.MY_IPV4_GW with
        | some ip, some m, some g =>
          w.log ++ sta_calls sta ip m g (w.ifs sta).up
            (decide (((w.ifs sta).addrs.erase ip).card < (w.ifs sta).max_addrs))
        | _, _, _ => w.log ++ [.dhcpv4_stop sta] := by
  unfold ip_config_work_handler sta_calls
  cases h1 : w.sta_iface with
  | none => rfl
  | some sta =>
    cases h2 : cfg.MY_IPV4_ADDR with
    | none => simp [net_dhcpv4_stop]
    | some ip =>
      cases h3 : cfg.MY_IPV4_NETMASK with
      | none => simp [net_dhcpv4_stop]
      | some m =>
        cases h4 : cfg.MY_IPV4_GW with
        | none => simp [net_dhcpv4_stop]
        | some g =>
          by_cases hc : ((w.ifs sta).addrs.erase ip).card < (w.ifs sta).max_addrs
          · simp [net_dhcpv4_stop, net_if_ipv4_addr_rm, net_if_ipv4_set_netmask,
              net_if_ipv4_set_gw, hc]
          · simp [net_dhcpv4_stop, net_if_ipv4_addr_rm, net_if_ipv4_set_netmask,
              net_if_ipv4_set_gw, hc]

/-- Nothing in `ip_config_work_handler` changes the administrative state of an
interface. -/
theorem up_ip_config_work_handler (cfg : Config) (w : World) (i : Nat) :
    ((ip_config_work_handler cfg w).ifs i).up = (w.ifs i).up := by
  rw [ifs_ip_config_work_handler]
  cases h1 : w.sta_iface with
  | none => rfl
  | some sta =>
    by_cases hi : i = sta
    · subst hi
      cases cfg.MY_IPV4_ADDR <;> cases cfg.MY_IPV4_NETMASK <;> cases cfg.MY_IPV4_GW <;>
        simp only [] <;> (try split_ifs) <;> simp
    · cases cfg.MY_IPV4_ADDR <;> cases cfg.MY_IPV4_NETMASK <;> cases cfg.MY_IPV4_GW <;>
        simp only [] <;> (try split_ifs) <;> simp [hi, Function.update_noteq]

theorem insert_erase_same (a : in_addr) (s : Finset in_addr) :
    insert a (s.erase a) = insert a s := by
  ext x
  by_cases h : x = a <;> simp [h]

theorem net_if_up_eq (n : net_if) (h : n.up = true) : { n with up := true } = n := by
  cases n; simp_all

/-- What `enable_dhcpv4_server` does to the interface table. -/
theorem ifs_enable_dhcpv4_server (cfg : Config) (ret : Int) (w : World) :
    (enable_dhcpv4_server cfg ret w).ifs =
      match w.ap_iface with
      | none => w.ifs
      | some ap =>
        match cfg.AP_IP_ADDRESS, cfg.AP_NETMASK with
        | some ip, some m =>
          Function.update w.ifs ap
            { w.ifs ap with
              up := true,
              addrs :=
                if ((w.ifs ap).addrs.erase ip).card < (w.ifs ap).max_addrs then
                  insert ip ((w.ifs ap).addrs.erase ip)
                else (w.ifs ap).addrs.erase ip,
              netmask := some m, gw := some ip,
              dhcpv4_server :=
                if ret = 0 then some { ip with s4_addr3 := 100 } else (w.ifs ap).dhcpv4_server }
        | _, _ => Function.update w.ifs ap { w.ifs ap with up := true } := by
  unfold enable_dhcpv4_server
  cases h1 : w.ap_iface with
  | none => rfl
  | some ap =>
    cases h2 : cfg.AP_IP_ADDRESS with
    | none =>
      by_cases hu : (w.ifs ap).up = true
      · simp [net_if_is_up, hu, net_if_up_eq _ hu]
      · simp [net_if_is_up, net_if_up, hu]
    | some ip =>
      cases h3 : cfg.AP_NETMASK with
      | none =>
        by_cases hu : (w.ifs ap).up = true
        · simp [net_if_is_up, hu, net_if_up_eq _ hu]
        · simp [net_if_is_up, net_if_up, hu]
      | some m =>
        by_cases hu : (w.ifs ap).up = true <;>
          by_cases hc : ((w.ifs ap).addrs.erase ip).card < (w.ifs ap).max_addrs <;>
          by_cases hr : ret = 0 <;>
          simp [net_if_is_up, net_if_up, hu, net_dhcpv4_server_start,
            net_if_ipv4_addr_rm, net_if_ipv4_set_netmask, net_if_ipv4_set_gw, hc, hr]

/-- What `enable_dhcpv4_server` adds to the log. -/
theorem log_enable_dhcpv4_server (cfg : Config) (ret : Int) (w : World) :
    (enable_dhcpv4_server cfg ret w).log =
      match w.ap_iface with
      | none => w.log
      | some ap =>
        w.log ++ (if (w.ifs ap).up = true then [] else [.if_up ap, .sleep 300]) ++
          ap_calls cfg ap := by
  unfold enable_dhcpv4_server ap_calls
  cases h1 : w.ap_iface with
  | none => rfl
  | some ap =>
    cases h2 : cfg.AP_IP_ADDRESS with
    | none => by_cases hu : (w.ifs ap).up = true <;> simp [net_if_is_up, net_if_up, hu]
    | some ip =>
      cases h3 : cfg.AP_NETMASK with
      | none => by_cases hu : (w.ifs ap).up = true <;> simp [net_if_is_up, net_if_up, hu]
      | some m =>
        by_cases hu : (w.ifs ap).up = true <;>
          by_cases hc : ((w.ifs ap).addrs.erase ip).card < (w.ifs ap).max_addrs <;>
          by_cases hr : ret = 0 <;>
          simp [net_if_is_up, net_if_up, hu, net_dhcpv4_server_start,
            net_if_ipv4_addr_rm, net_if_ipv4_set_netmask, net_if_ipv4_set_gw, hr, hc]

/-- After `enable_dhcpv4_server` the AP interface is administratively up. -/
theorem up_enable_dhcpv4_server (cfg : Config) (ret : Int) (w : World) (ap : Nat)
    (h : w.ap_iface = some ap) : ((enable_dhcpv4_server cfg ret w).ifs ap).up = true := by
  rw [ifs_enable_dhcpv4_server, h]
  cases cfg.AP_IP_ADDRESS <;> cases cfg.AP_NETMASK <;> simp

/-- C9, as amended: provisioning is idempotent.  Running `ip_config_work_handler`
twice in succession leaves every interface as running it once does, and running
`enable_dhcpv4_server` twice leaves every interface with the addresses, netmask
and gateway it has after one run, for every initial world and configuration.
With a valid configuration, the target address is in the address set after
provisioning (with the configured netmask and gateway) when, once the target is
removed, the address table has a free slot.  When it has none, the add fails
and the target address is absent after one run and after two:
`ip_config_work_handler` then leaves netmask and gateway as they were, and
`enable_dhcpv4_server` still sets them. -/
theorem provisioning_idempotent (cfg : Config) (r1 r2 : Int) (w : World) :
    (ip_config_work_handler cfg (ip_config_work_handler cfg w)).ifs =
        (ip_config_work_handler cfg w).ifs ∧
      (∀ i, addressing ((enable_dhcpv4_server cfg r2 (enable_dhcpv4_server cfg r1 w)).ifs i) =
        addressing ((enable_dhcpv4_server cfg r1 w).ifs i)) ∧
      (∀ sta ip m g, w.sta_iface = some sta → cfg.MY_IPV4_ADDR = some ip →
        cfg.MY_IPV4_NETMASK = some m → cfg.MY_IPV4_GW = some g →
        ((w.ifs sta).addrs.erase ip).card < (w.ifs sta).max_addrs →
        addressing ((ip_config_work_handler cfg w).ifs sta) =
          (insert ip (w.ifs sta).addrs, some m, some g)) ∧
      (∀ ap ip m, w.ap_iface = some ap → cfg.AP_IP_ADDRESS = some ip →
        cfg.AP_NETMASK = some m →
        ((w.ifs ap).addrs.erase ip).card < (w.ifs ap).max_addrs →
        addressing ((enable_dhcpv4_server cfg r1 w).ifs ap) =
          (insert ip (w.ifs ap).addrs, some m, some ip)) ∧
      (∀ sta ip m g, w.sta_iface = some sta → cfg.MY_IPV4_ADDR = some ip →
        cfg.MY_IPV4_NETMASK = some m → cfg.MY_IPV4_GW = some g →
        ¬ ((w.ifs sta).addrs.erase ip).card < (w.ifs sta).max_addrs →
        addressing ((ip_config_work_handler cfg w).ifs sta) =
            ((w.ifs sta).addrs.erase ip, (w.ifs sta).netmask, (w.ifs sta).gw) ∧
          ip ∉ ((ip_config_work_handler cfg w).ifs sta).addrs ∧
          ip ∉ ((ip_config_work_handler cfg (ip_config_work_handler cfg w)).ifs sta).addrs) ∧
      (∀ ap ip m, w.ap_iface = some ap → cfg.AP_IP_ADDRESS = some ip →
        cfg.AP_NETMASK = some m →
        ¬ ((w.ifs ap).addrs.erase ip).card < (w.ifs ap).max_addrs →
        addressing ((enable_dhcpv4_server cfg r1 w).ifs ap) =
            ((w.ifs ap).addrs.erase ip, some m, some ip) ∧
          ip ∉ ((enable_dhcpv4_server cfg r1 w).ifs ap).addrs ∧
          ip ∉ ((enable_dhcpv4_server cfg r2 (enable_dhcpv4_server cfg r1 w)).ifs ap).addrs) := by
  have hsta : (ip_config_work_handler cfg (ip_config_work_handler cfg w)).ifs =
      (ip_config_work_handler cfg w).ifs := by
    rw [ifs_ip_config_work_handler cfg (ip_config_work_handler cfg w),
      sta_iface_ip_config_work_handler, ifs_ip_config_work_handler cfg w]
    cases h1 : w.sta_iface with
    | none => rfl
    | some sta =>
      cases h2 : cfg.MY_IPV4_ADDR with
      | none => simp
      | some ip =>
        cases h3 : cfg.MY_IPV4_NETMASK with
        | none => simp
        | some m =>
          cases h4 : cfg.MY_IPV4_GW with
          | none => simp
          | some g =>
            by_cases hc : ((w.ifs sta).addrs.erase ip).card < (w.ifs sta).max_addrs <;>
              simp [hc, Finset.erase_insert_eq_erase]
  have hap : ∀ i,
      addressing ((enable_dhcpv4_server cfg r2 (enable_dhcpv4_server cfg r1 w)).ifs i) =
        addressing ((enable_dhcpv4_server cfg r1 w).ifs i) := by
    intro i
    rw [ifs_enable_dhcpv4_server cfg r2 (enable_dhcpv4_server cfg r1 w),
      (ap_config_enable_dhcpv4_server cfg r1 w).2, ifs_enable_dhcpv4_server cfg r1 w]
    cases h1 : w.ap_iface with
    | none => rfl
    | some ap =>
      cases h2 : cfg.AP_IP_ADDRESS with
      | none => simp
      | some ip =>
        cases h3 : cfg.AP_NETMASK with
        | none => simp
        | some m =>
          by_cases hi : i = ap
          · subst hi
            by_cases hc : ((w.ifs i).addrs.erase ip).card < (w.ifs i).max_addrs <;>
              simp [hc, addressing, Finset.erase_insert_eq_erase]
          · by_cases hc : ((w.ifs ap).addrs.erase ip).card < (w.ifs ap).max_addrs <;>
              simp [hc, hi, addressing, Function.update_noteq]
  refine ⟨hsta, hap, ?_, ?_, ?_, ?_⟩
  · intro sta ip m g h1 h2 h3 h4 hc
    rw [ifs_ip_config_work_handler, h1]
    simp [h2, h3, h4, hc, addressing, insert_erase_same]
  · intro ap ip m h1 h2 h3 hc
    rw [ifs_enable_dhcpv4_server, h1]
    simp [h2, h3, hc, addressing, insert_erase_same]
  · intro sta ip m g h1 h2 h3 h4 hc
    have h : addressing ((ip_config_work_handler cfg w).ifs sta) =
        ((w.ifs sta).addrs.erase ip, (w.ifs sta).netmask, (w.ifs sta).gw) := by
      rw [ifs_ip_config_work_handler, h1]
      simp [h2, h3, h4, hc, addressing]
    have hab : ip ∉ ((ip_config_work_handler cfg w).ifs sta).addrs := by
      have := congrArg Prod.fst h
      simp only [addressing] at this
      rw [this]
      exact Finset.not_mem_erase ip _
    exact ⟨h, hab, by rw [hsta]; exact hab⟩
  · intro ap ip m h1 h2 h3 hc
    have h : addressing ((enable_dhcpv4_server cfg r1 w).ifs ap) =
        ((w.ifs ap).addrs.erase ip, some m, some ip) := by
      rw [ifs_enable_dhcpv4_server, h1]
      simp [h2, h3, hc, addressing]
    have hab : ip ∉ ((enable_dhcpv4_server cfg r1 w).ifs ap).addrs := by
      have := congrArg Prod.fst h
      simp only [addressing] at this
      rw [this]
      exact Finset.not_mem_erase ip _
    refine ⟨h, hab, ?_⟩
    have h2r := congrArg Prod.fst (hap ap)
    simp only [addressing] at h2r
    rw [h2r]
    exact hab

/-- Witness of C9: the STA and AP interfaces of `world0` have a free slot, those
of `world_full` have none. -/
theorem provisioning_idempotent_witness :
    addressing ((ip_config_work_handler cfg0 world0).ifs 2) =
        (insert ⟨192, 168, 1, 50⟩ (world0.ifs 2).addrs, some ⟨255, 255, 255, 0⟩,
          some ⟨192, 168, 1, 1⟩) ∧
      addressing ((enable_dhcpv4_server cfg0 0 world0).ifs 1) =
        (insert ⟨192, 168, 4, 1⟩ (world0.ifs 1).addrs, some ⟨255, 255, 255, 0⟩,
          some ⟨192, 168, 4, 1⟩) ∧
      addressing ((ip_config_work_handler cfg0 world_full).ifs 2) =
        ((world_full.ifs 2).addrs.erase ⟨192, 168, 1, 50⟩, (world_full.ifs 2).netmask,
          (world_full.ifs 2).gw) ∧
      addressing ((enable_dhcpv4_server cfg0 0 world_full).ifs 1) =
        ((world_full.ifs 1).addrs.erase ⟨192, 168, 4, 1⟩, some ⟨255, 255, 255, 0⟩,
          some ⟨192, 168, 4, 1⟩) :=
  have h := provisioning_idempotent cfg0 0 0 world0
  have hf := provisioning_idempotent cfg0 0 0 world_full
  ⟨h.2.2.1 2 _ _ _ rfl rfl rfl rfl (by decide), h.2.2.2.1 1 _ _ rfl rfl rfl (by decide),
    (hf.2.2.2.2.1 2 _ _ _ rfl rfl rfl rfl (by decide)).1,
    (hf.2.2.2.2.2 1 _ _ rfl rfl rfl (by decide)).1⟩

/-- Counterexample to C9 as stated: the only address slot of the interfaces
holds another address; after provisioning, once or twice, the target address is
not among the addresses of the STA interface, nor of the AP interface. -/
theorem provisioning_target_absent :
    (⟨192, 168, 1, 50⟩ : in_addr) ∉ ((ip_config_work_handler cfg0 world_full).ifs 2).addrs ∧
      (⟨192, 168, 1, 50⟩ : in_addr) ∉
        ((ip_config_work_handler cfg0 (ip_config_work_handler cfg0 world_full)).ifs 2).addrs ∧
      (⟨192, 168, 4, 1⟩ : in_addr) ∉ ((enable_dhcpv4_server cfg0 0 world_full).ifs 1).addrs := by
  decide

/-! ## Bringing the interface up before addressing it -/

/-- The address operations of `enable_dhcpv4_server` are logged as made on an
interface that is up. -/
theorem on_down_ap_calls (cfg : Config) (ap : Nat) :
    ∀ a ∈ ap_calls cfg ap, on_down a = false := by
  unfold ap_calls
  cases cfg.AP_IP_ADDRESS with
  | none => simp
  | some ip =>
    cases cfg.AP_NETMASK with
    | none => simp
    | some m => simp [on_down]

/-- The address operations of `ip_config_work_handler` on an interface that is
up are logged as such. -/
theorem on_down_sta_calls (sta : Nat) (ip m g : in_addr) (room : Bool) :
    ∀ a ∈ sta_calls sta ip m g true room, on_down a = false := by
  cases room <;> simp [sta_calls, on_down]

/-- Once the STA interface is up and no logged address operation found its
interface down, this stays so whatever the asynchronous contexts do. -/
theorem sys_step_on_up (cfg : Config) (i : Input) (w : World)
    (hsta : ∀ s, w.sta_iface = some s → (w.ifs s).up = true)
    (hlog : ∀ a ∈ w.log, on_down a = false) :
    (∀ s, (sys_step cfg i w).sta_iface = some s → ((sys_step cfg i w).ifs s).up = true) ∧
      ∀ a ∈ (sys_step cfg i w).log, on_down a = false := by
  cases i with
  | event e iface =>
    cases e with
    | CONNECT_RESULT status =>
      by_cases hs : status = 0
      · subst hs
        constructor
        · intro s h
          have hs : s = iface := by
            simpa [sys_step, wifi_event_handler, k_work_schedule, k_work_init_delayable,
              net_dhcpv4_stop, net_if_up] using h.symm
          subst hs
          simp [sys_step, wifi_event_handler, k_work_schedule, k_work_init_delayable,
            net_dhcpv4_stop, net_if_up]
        · intro a ha
          simp only [sys_step, wifi_event_handler, k_work_schedule, k_work_init_delayable,
            net_dhcpv4_stop, net_if_up] at ha
          simp at ha
          rcases ha with h | h | h | h
          · exact hlog a h
          · subst h; rfl
          · subst h; rfl
          · subst h; rfl
      · simpa [sys_step, wifi_event_handler, hs] using And.intro hsta hlog
    | DISCONNECT_RESULT =>
      constructor
      · intro s h
        have hs : w.sta_iface = some s := by
          simpa [sys_step, wifi_event_handler, k_work_cancel_delayable, net_dhcpv4_stop]
            using h
        have hu := hsta s hs
        by_cases hi : s = iface
        · subst hi
          simpa [sys_step, wifi_event_handler, k_work_cancel_delayable, net_dhcpv4_stop]
            using hu
        · simpa [sys_step, wifi_event_handler, k_work_cancel_delayable, net_dhcpv4_stop, hi,
            Function.update_noteq] using hu
      · intro a ha
        simp only [sys_step, wifi_event_handler, k_work_cancel_delayable, net_dhcpv4_stop]
          at ha
        simp at ha
        rcases ha with h | h | h
        · exact hlog a h
        · subst h; rfl
        · subst h; rfl
    | AP_ENABLE_RESULT => exact ⟨hsta, hlog⟩
    | AP_DISABLE_RESULT => exact ⟨hsta, hlog⟩
    | AP_STA_CONNECTED mac => exact ⟨hsta, hlog⟩
    | AP_STA_DISCONNECTED mac => exact ⟨hsta, hlog⟩
    | OTHER => exact ⟨hsta, hlog⟩
  | elapse ms =>
    simp only [sys_step, elapse]
    cases hwk : w.ip_config_work with
    | none => exact ⟨hsta, hlog⟩
    | some d =>
      simp only []
      by_cases hd : d ≤ ms
      · rw [if_pos hd]
        constructor
        · intro s h
          rw [sta_iface_ip_config_work_handler] at h
          rw [up_ip_config_work_handler]
          exact hsta s h
        · intro a ha
          rw [log_ip_config_work_handler] at ha
          simp only [record_sta_iface, record_ifs, record_log] at ha
          cases h1 : w.sta_iface with
          | none =>
            simp only [h1] at ha
            rcases List.mem_append.mp ha with h | h
            · exact hlog a h
            · simp at h; subst h; rfl
          | some sta =>
            have hu := hsta sta h1
            simp only [h1] at ha
            have hmem : a ∈ w.log ∨ a = Action.work_run ∨ a = Action.dhcpv4_stop sta ∨
                ∃ ip m g room, a ∈ sta_calls sta ip m g true room := by
              cases h2 : cfg.MY_IPV4_ADDR with
              | none =>
                simp [h2] at ha
                rcases ha with h | h | h
                · exact Or.inl h
                · exact Or.inr (Or.inl h)
                · exact Or.inr (Or.inr (Or.inl h))
              | some ip =>
                cases h3 : cfg.MY_IPV4_NETMASK with
                | none =>
                  simp [h2, h3] at ha
                  rcases ha with h | h | h
                  · exact Or.inl h
                  · exact Or.inr (Or.inl h)
                  · exact Or.inr (Or.inr (Or.inl h))
                | some m =>
                  cases h4 : cfg.MY_IPV4_GW with
                  | none =>
                    simp [h2, h3, h4] at ha
                    rcases ha with h | h | h
                    · exact Or.inl h
                    · exact Or.inr (Or.inl h)
                    · exact Or.inr (Or.inr (Or.inl h))
                  | some g =>
                    simp only [h2, h3, h4, hu] at ha
                    rcases List.mem_append.mp ha with h | h
                    · rcases List.mem_append.mp h with h | h
                      · exact Or.inl h
                      · simp at h; exact Or.inr (Or.inl h)
                    · exact Or.inr (Or.inr (Or.inr ⟨ip, m, g, _, h⟩))
            rcases hmem with h | h | h | ⟨ip, m, g, room, h⟩
            · exact hlog a h
            · subst h; rfl
            · subst h; rfl
            · exact on_down_sta_calls sta ip m g room a h
      · rw [if_neg hd]
        exact ⟨hsta, hlog⟩

theorem deliver_on_up (cfg : Config) (ins : List Input) (w : World)
    (hsta : ∀ s, w.sta_iface = some s → (w.ifs s).up = true)
    (hlog : ∀ a ∈ w.log, on_down a = false) :
    ∀ a ∈ (deliver cfg ins w).log, on_down a = false := by
  induction ins generalizing w with
  | nil => exact hlog
  | cons i ins ih =>
    obtain ⟨h1, h2⟩ := sys_step_on_up cfg i w hsta hlog
    simpa [deliver] using ih (sys_step cfg i w) h1 h2

end Wifi
